import Mathlib

/- Shallow embedding of the World subsystem of THE-BACKROOMS
   (src/world.py, src/save_system.py).

   Modelling conventions:
   - Python floats are modelled as exact rationals.  The float literals
     0.2, 0.33 and 0.66 that gate behaviour in world.py are rendered as the
     exact binary64 values the running program compares against.
   - Python strings are modelled as lists of characters.
   - The deterministic PRNG streams of the source (random.Random(seed)),
     the int-tuple hash, and the zone-property generator of procedural.py
     (absent from src/) are pure functions of their arguments, so they are
     modelled as function-valued fields of an environment record.
   - Python dicts are association lists with Python's update-or-append
     insertion behaviour; Python sets are duplicate-free lists. -/

namespace Backrooms

def digitChar (n : Nat) : Char := Char.ofNat (48 + n)

def printNatAux : Nat → Nat → List Char
  | 0, _ => []
  | fuel + 1, n =>
    if n < 10 then [digitChar n]
    else printNatAux fuel (n / 10) ++ [digitChar (n % 10)]

def printNat (n : Nat) : List Char := printNatAux (n + 1) n

def printInt (i : Int) : List Char :=
  if i < 0 then '-' :: printNat i.natAbs else printNat i.natAbs

/-! ### A strict recursive-descent parser for the printed forms -/

def parseDigits : List Char → Nat → Nat × List Char
  | [], acc => (acc, [])
  | c :: rest, acc =>
    if c.isDigit then parseDigits rest (acc * 10 + (c.toNat - 48)) else (acc, c :: rest)

def headIsDigit : List Char → Bool
  | [] => false
  | c :: _ => c.isDigit

def parseNat? : List Char → Option (Nat × List Char)
  | [] => none
  | c :: rest => if c.isDigit then some (parseDigits (c :: rest) 0) else none

def parseInt? : List Char → Option (Int × List Char)
  | [] => none
  | c :: rest =>
    if c = '-' then (parseNat? rest).map (fun p => (-(p.1 : Int), p.2))
    else (parseNat? (c :: rest)).map (fun p => ((p.1 : Int), p.2))

/-! ### Round-trip lemmas -/

def PillarKey := Int × Int

deriving DecidableEq, Inhabited

def WallKey := (Int × Int) × (Int × Int)

deriving DecidableEq, Inhabited

def printPillarKey (p : PillarKey) : List Char :=
  '(' :: (printInt p.1 ++ ',' :: ' ' :: printInt p.2 ++ [')'])

def printWallKey (k : WallKey) : List Char :=
  '(' :: (printPillarKey k.1 ++ ',' :: ' ' :: printPillarKey k.2 ++ [')'])

def expectChar (c : Char) : List Char → Option (List Char)
  | d :: rest => if d = c then some rest else none
  | [] => none

def parsePillarRest? (l : List Char) : Option (PillarKey × List Char) := do
  let l ← expectChar '(' l
  let (a, l) ← parseInt? l
  let l ← expectChar ',' l
  let l ← expectChar ' ' l
  let (b, l) ← parseInt? l
  let l ← expectChar ')' l
  pure (((a, b) : PillarKey), l)

def parseWallRest? (l : List Char) : Option (WallKey × List Char) := do
  let l ← expectChar '(' l
  let (p, l) ← parsePillarRest? l
  let l ← expectChar ',' l
  let l ← expectChar ' ' l
  let (q, l) ← parsePillarRest? l
  let l ← expectChar ')' l
  pure (((p, q) : WallKey), l)

def pyEvalPillarKey? (l : List Char) : Option PillarKey :=
  match parsePillarRest? l with
  | some (p, []) => some p
  | _ => none

def pyEvalWallKey? (l : List Char) : Option WallKey :=
  match parseWallRest? l with
  | some (k, []) => some k
  | _ => none

def dget? {κ β : Type} [DecidableEq κ] : List (κ × β) → κ → Option β
  | [], _ => none
  | (k', v) :: rest, k => if k' = k then some v else dget? rest k

def dset {κ β : Type} [DecidableEq κ] : List (κ × β) → κ → β → List (κ × β)
  | [], k, v => [(k, v)]
  | (k', v') :: rest, k, v =>
    if k' = k then (k, v) :: rest else (k', v') :: dset rest k v

def sadd {α : Type} [DecidableEq α] (s : List α) (k : α) : List α :=
  if k ∈ s then s else s ++ [k]

/-- `set(xs)` built by iterated insertion: keeps first occurrences, drops
later duplicates.  Membership agrees with the original list. -/
def pyset {α : Type} [DecidableEq α] (l : List α) : List α :=
  l.foldl sadd []

def q02 : ℚ := 3602879701896397 / 18014398509481984

def q033 : ℚ := 5944751508129055 / 18014398509481984

def q066 : ℚ := 5944751508129055 / 9007199254740992

def piF : ℚ := 884279719003555 / 281474976710656

/-- Progressive damage states for walls (world.py `WallState`).  `BREAKING`
is declared in the source but never assigned by the current thresholds. -/
inductive WallState where
  | INTACT
  | CRACKED
  | FRACTURED
  | BREAKING
  | DESTROYED

deriving DecidableEq, Inhabited

/-- The `.name` of a `WallState`, as stored by `get_state_for_save`. -/
def WallState.pyName : WallState → List Char
  | .INTACT => 'I' :: 'N' :: 'T' :: 'A' :: 'C' :: 'T' :: []
  | .CRACKED => 'C' :: 'R' :: 'A' :: 'C' :: 'K' :: 'E' :: 'D' :: []
  | .FRACTURED => 'F' :: 'R' :: 'A' :: 'C' :: 'T' :: 'U' :: 'R' :: 'E' :: 'D' :: []
  | .BREAKING => 'B' :: 'R' :: 'E' :: 'A' :: 'K' :: 'I' :: 'N' :: 'G' :: []
  | .DESTROYED => 'D' :: 'E' :: 'S' :: 'T' :: 'R' :: 'O' :: 'Y' :: 'E' :: 'D' :: []

/-- `WallState[name]` as used by `load_state`; unknown names raise, modelled
as `none`. -/
def WallState.ofPyName (l : List Char) : Option WallState :=
  if l = WallState.INTACT.pyName then some .INTACT
  else if l = WallState.CRACKED.pyName then some .CRACKED
  else if l = WallState.FRACTURED.pyName then some .FRACTURED
  else if l = WallState.BREAKING.pyName then some .BREAKING
  else if l = WallState.DESTROYED.pyName then some .DESTROYED
  else none

/-- A crack record `(u, v, angle, length)` in wall-local UV space. -/
abbrev Crack := ℚ × ℚ × ℚ × ℚ

/-- Debris particle.  Modelled from the spec: debris.py is not under src/;
§3 and §6 of the spec give it a position, velocity-or-settled, color and
active flag, with `is_settled` true exactly when no velocity was supplied. -/
structure Debris where
  cx : ℚ
  cy : ℚ
  cz : ℚ
  color : Int × Int × Int
  vx : ℚ
  vy : ℚ
  vz : ℚ
  is_settled : Bool
  active : Bool

deriving DecidableEq, Inhabited

/-- The `Debris(pos, color, velocity=...)` constructor.  Modelled from the
spec: a particle starts active; `velocity=None` marks it settled from the
start with no motion. -/
def Debris.make (pos : ℚ × ℚ × ℚ) (color : Int × Int × Int)
    (velocity : Option (ℚ × ℚ × ℚ)) : Debris :=
  { cx := pos.1, cy := pos.2.1, cz := pos.2.2, color := color,
    vx := (velocity.getD (0, 0, 0)).1,
    vy := (velocity.getD (0, 0, 0)).2.1,
    vz := (velocity.getD (0, 0, 0)).2.2,
    is_settled := velocity.isNone, active := true }

/-- Zone flavor properties.  Modelled from the spec: procedural.py is not
under src/; the World core only consumes the per-zone decay probability
(`props['decay_chance']`, spec §4.2). -/
structure ZoneProps where
  decay_chance : ℚ

deriving DecidableEq, Inhabited

/-- Pillar placement mode (config constant `PILLAR_MODE`); `pother` stands
for any string outside the recognized ones (probability 0 per the source's
`probability_map.get(PILLAR_MODE, 0.0)`). -/
inductive PMode where
  | pnone
  | pall
  | psparse
  | pnormal
  | pdense
  | pother

deriving DecidableEq, Inhabited

/-- The environment of the World: configuration constants (config.py is not
under src/, so their values are parameters, modelled from the spec) and the
pure deterministic functions the source draws randomness from:
`rand s i` is the i-th output of `random.Random(s).random()`;
`pyhash a b c` is Python's `hash((a, b, c))` (a fixed pure function of the
ints); `zoneProps` is `ProceduralZone.get_zone_properties`; `grand`/`grandInt`
are the process-global `random.uniform`/`random.randint` sources consumed one
draw per call, indexed by the world's running draw cursor; `debrisUpdate` is
`Debris.update(dt, floor_y)` (external to this core per spec §4.4). -/
structure Env where
  pillarSpacing : Int
  pillarSize : ℚ
  wallThickness : ℚ
  zoneSize : Int
  hallwayWidth : ℚ
  pillarMode : PMode
  wallHeight : ℚ
  floorY : ℚ
  wallColor : Int × Int × Int
  pillarColor : Int × Int × Int
  rand : Int → Nat → ℚ
  pyhash : Int → Int → Int → Int
  zoneProps : Int → Int → Int → ZoneProps
  grand : Nat → ℚ
  grandInt : Nat → Int → Int → Int
  debrisUpdate : Debris → ℚ → ℚ → Debris

/-- In-memory state of `World` (world.py `World.__init__`).  `rcur` is the
cursor into the process-global random stream (not Python object state, but
process state the unseeded `random.*` calls consume). -/
structure World where
  world_seed : Int
  pillar_cache : List (PillarKey × Bool)
  wall_cache : List (WallKey × Bool)
  zone_cache : List ((Int × Int) × ZoneProps)
  lamp_cache : List ((Int × Int) × Bool)
  trap_cache : List ((Int × Int) × Bool)
  destroyed_walls : List WallKey
  destroyed_pillars : List PillarKey
  destroyed_lamps : List (Int × Int)
  triggered_traps : List (Int × Int)
  pre_damaged_walls : List (WallKey × ℚ)
  wall_states : List (WallKey × WallState)
  wall_health : List (WallKey × ℚ)
  wall_cracks : List (WallKey × List Crack)
  debris_pieces : List Debris
  spawned_rubble : List WallKey
  rcur : Nat

deriving DecidableEq

/-- `World(world_seed)` with an explicit seed (the `None` branch draws a
random seed; all claims concern explicitly seeded worlds). -/
def World.init (seed : Int) : World :=
  { world_seed := seed, pillar_cache := [], wall_cache := [], zone_cache := [],
    lamp_cache := [], trap_cache := [], destroyed_walls := [],
    destroyed_pillars := [], destroyed_lamps := [], triggered_traps := [],
    pre_damaged_walls := [], wall_states := [], wall_health := [],
    wall_cracks := [], debris_pieces := [], spawned_rubble := [], rcur := 0 }

/-! ### World operations (world.py) -/

/-- Floor of a rational, matching Python float floor-division results. -/
def qfloor (q : ℚ) : Int := q.num.fdiv q.den

/-- Python's `a + (b - a) * random()`, i.e. `random.uniform(a, b)` drawn from
the global stream at cursor `n`. -/
def guniform (env : Env) (n : Nat) (a b : ℚ) : ℚ := a + (b - a) * env.grand n

/-- `get_zone_at(x, z)` (world.py:66). -/
def get_zone_at (env : Env) (x z : ℚ) : Int × Int :=
  (qfloor (x / (env.zoneSize : ℚ)), qfloor (z / (env.zoneSize : ℚ)))

/-- `get_zone_properties` (world.py:72): cached zone flavor lookup. -/
def get_zone_properties (env : Env) (w : World) (zx zz : Int) : ZoneProps × World :=
  match dget? w.zone_cache (zx, zz) with
  | some p => (p, w)
  | none =>
    let p := env.zoneProps zx zz w.world_seed
    (p, { w with zone_cache := dset w.zone_cache (zx, zz) p })

/-- Pillar probability table of `has_pillar_at` (world.py:106), with the
`probability_map.get(PILLAR_MODE, 0.0)` fallback. -/
def pillarProbability : PMode → ℚ
  | .psparse => 1 / 10
  | .pnormal => 3 / 10
  | .pdense => 3 / 5
  | _ => 0

/-- `has_pillar_at(px, pz)` (world.py:81): cached, deterministic from
`hash((px, pz, world_seed)) % 100000`. -/
def has_pillar_at (env : Env) (w : World) (px pz : Int) : Bool × World :=
  let key : PillarKey := (px, pz)
  match dget? w.pillar_cache key with
  | some v => (v, w)
  | none =>
    if env.pillarMode = .pnone then
      (false, { w with pillar_cache := dset w.pillar_cache key false })
    else
      let offset := env.pillarSpacing.fdiv 2
      if ¬(px.emod env.pillarSpacing = offset ∧ pz.emod env.pillarSpacing = offset) then
        (false, { w with pillar_cache := dset w.pillar_cache key false })
      else if env.pillarMode = .pall then
        (true, { w with pillar_cache := dset w.pillar_cache key true })
      else
        let seed := (env.pyhash px pz w.world_seed).emod 100000
        let has_pillar := env.rand seed 0 < pillarProbability env.pillarMode
        (has_pillar, { w with pillar_cache := dset w.pillar_cache key has_pillar })

/-- `tuple(sorted([(x1, z1), (x2, z2)]))` — Python sorts the two int pairs
lexicographically. -/
def mkWallKey (x1 z1 x2 z2 : Int) : WallKey :=
  if x1 < x2 ∨ (x1 = x2 ∧ z1 ≤ z2) then ((x1, z1), (x2, z2)) else ((x2, z2), (x1, z1))

/-- The one-time pre-damage roll of `has_wall_between` (world.py:139): on
first discovery, draw against the zone decay chance; on success record a
uniform damage in [0, 0.5], and if that damage is below the float 0.2 add
the wall to `destroyed_walls` immediately. -/
def predamage_roll (env : Env) (w : World) (key : WallKey) (x1 z1 x2 z2 : Int) : World :=
  if (dget? w.pre_damaged_walls key).isNone then
    let zone := get_zone_at env (((x1 : ℚ) + x2) / 2) (((z1 : ℚ) + z2) / 2)
    let pw := get_zone_properties env w zone.1 zone.2
    let props := pw.1
    let w := pw.2
    let decay_seed := x1 * 7919 + z1 * 6577 + x2 * 4993 + z2 * 3571 + w.world_seed * 9973
    if env.rand decay_seed 0 < props.decay_chance then
      let damage := (1 / 2 : ℚ) * env.rand decay_seed 1
      let w := { w with pre_damaged_walls := dset w.pre_damaged_walls key damage }
      if damage < q02 then
        { w with destroyed_walls := sadd w.destroyed_walls key }
      else w
    else w
  else w

/-- `has_wall_between(x1, z1, x2, z2)` (world.py:124): cached existence with
the one-time pre-damage roll at first discovery. -/
def has_wall_between (env : Env) (w : World) (x1 z1 x2 z2 : Int) : Bool × World :=
  let key := mkWallKey x1 z1 x2 z2
  match dget? w.wall_cache key with
  | some v => (v, w)
  | none =>
    if z1 = z2 ∨ x1 = x2 then
      let w := predamage_roll env w key x1 z1 x2 z2
      (true, { w with wall_cache := dset w.wall_cache key true })
    else
      (false, { w with wall_cache := dset w.wall_cache key false })

/-- Doorway classification result. -/
inductive Door where
  | hallway
  | doorway

deriving DecidableEq, Inhabited

/-- `get_doorway_type` (world.py:167): derived, never cached; `none` means a
solid wall.  Pure in the world state except for reading the seed. -/
def get_doorway_type (env : Env) (w : World) (x1 z1 x2 z2 : Int) : Option Door :=
  let door_seed :=
    if z1 = z2 then z1 * 3571 + ((x1 + x2).fdiv 2) * 2897 + w.world_seed * 9973
    else x1 * 3571 + ((z1 + z2).fdiv 2) * 2897 + w.world_seed * 9973
  let roll := env.rand door_seed 0
  if roll < 3 / 10 then some .hallway
  else if roll < 1 / 2 then some .doorway
  else none

/-- `get_wall_state` (world.py:188): destroyed membership wins. -/
def get_wall_state (w : World) (key : WallKey) : WallState :=
  if key ∈ w.destroyed_walls then .DESTROYED
  else (dget? w.wall_states key).getD .INTACT

/-- `get_wall_health` (world.py:194): destroyed membership wins. -/
def get_wall_health (w : World) (key : WallKey) : ℚ :=
  if key ∈ w.destroyed_walls then 0
  else (dget? w.wall_health key).getD 1

/-- `get_wall_cracks` (world.py:200). -/
def get_wall_cracks (w : World) (key : WallKey) : List Crack :=
  (dget? w.wall_cracks key).getD []

/-- `_add_crack(wall_key)` (world.py:215) with no supplied impact point (the
only form the in-scope callers use): four global draws. -/
def add_crack (env : Env) (w : World) (key : WallKey) : World :=
  let cur := (dget? w.wall_cracks key).getD []
  let n := w.rcur
  let u := guniform env n (1 / 10) (9 / 10)
  let v := guniform env (n + 1) (1 / 10) (9 / 10)
  let angle := guniform env (n + 2) 0 piF
  let length := guniform env (n + 3) (1 / 10) (2 / 5)
  { w with wall_cracks := dset w.wall_cracks key (cur ++ [((u, v, angle, length) : Crack)]),
           rcur := n + 4 }

/-- Clamp a color channel to [0, 255] (world.py:308). -/
def clampColor (c : Int) : Int := max 0 (min 255 c)

/-- One debris particle of `spawn_wall_debris` (world.py:297), consuming the
seven global draws of its loop body in source order. -/
def mkWallDebrisPiece (env : Env) (x1 z1 x2 z2 : Int) (n : Nat) : Debris :=
  let cx := ((x1 : ℚ) + x2) / 2
  let cz := ((z1 : ℚ) + z2) / 2
  let offset_x := guniform env n (-((env.pillarSpacing : ℚ) / 2)) ((env.pillarSpacing : ℚ) / 2)
  let offset_z := guniform env (n + 1) (-env.wallThickness) env.wallThickness
  let py := guniform env (n + 2) env.floorY env.wallHeight
  let vx := guniform env (n + 3) (-10) 10
  let vy := guniform env (n + 4) (-5) 5
  let vz := guniform env (n + 5) (-10) 10
  let color_var := env.grandInt (n + 6) (-40) 20
  let particle_color := (clampColor (env.wallColor.1 + color_var),
                         clampColor (env.wallColor.2.1 + color_var),
                         clampColor (env.wallColor.2.2 + color_var))
  let pos := if x1 = x2 then (cx + offset_z, py, cz + offset_x)
             else (cx + offset_x, py, cz + offset_z)
  Debris.make pos particle_color (some (vx, vy, vz))

/-- `spawn_wall_debris(wall_key)` (world.py:287): appends 150 particles. -/
def spawn_wall_debris (env : Env) (w : World) (key : WallKey) : World :=
  let x1 := key.1.1
  let z1 := key.1.2
  let x2 := key.2.1
  let z2 := key.2.2
  { w with
    debris_pieces := w.debris_pieces ++
      (List.range 150).map (fun i => mkWallDebrisPiece env x1 z1 x2 z2 (w.rcur + 7 * i)),
    rcur := w.rcur + 7 * 150 }

/-- `hit_wall(wall_key, damage)` (world.py:227).  Returns whether the wall
was destroyed by this call.  Event emission and the wall-center position are
external side effects with no World state.  The source indexes
`wall_states[wall_key]` directly in the transition guards (present whenever
health is, for every state the class itself can reach); the model reads it
with the INTACT default. -/
def hit_wall (env : Env) (w : World) (key : WallKey) (damage : ℚ) : Bool × World :=
  if key ∈ w.destroyed_walls then (false, w)
  else
    let w :=
      if (dget? w.wall_health key).isNone then
        { w with wall_health := dset w.wall_health key 1,
                 wall_states := dset w.wall_states key .INTACT }
      else w
    let health := (dget? w.wall_health key).getD 1 - damage
    let w := { w with wall_health := dset w.wall_health key health }
    if health ≤ 0 then
      let w := { w with destroyed_walls := sadd w.destroyed_walls key,
                        wall_states := dset w.wall_states key .DESTROYED }
      (true, spawn_wall_debris env w key)
    else if health ≤ q033 ∧ (dget? w.wall_states key).getD .INTACT ≠ .FRACTURED then
      let w := { w with wall_states := dset w.wall_states key .FRACTURED }
      (false, add_crack env (add_crack env w key) key)
    else if health ≤ q066 ∧ (dget? w.wall_states key).getD .INTACT = .INTACT then
      let w := { w with wall_states := dset w.wall_states key .CRACKED }
      (false, add_crack env w key)
    else (false, w)

/-- `destroy_wall(wall_key, destroy_sound)` (world.py:271); the sound is an
external collaborator with no World state. -/
def destroy_wall (env : Env) (w : World) (key : WallKey) : World :=
  if key ∈ w.destroyed_walls then w
  else
    let w := { w with destroyed_walls := sadd w.destroyed_walls key,
                      wall_states := dset w.wall_states key .DESTROYED,
                      wall_health := dset w.wall_health key 0 }
    spawn_wall_debris env w key

/-- `update_debris(dt, player_x, player_z)` (world.py:410): per-particle
update, distance cull, compaction, then the 12000 hard cap keeping the most
recently appended particles. -/
def update_debris (env : Env) (w : World) (dt player_x player_z : ℚ) : World :=
  let upd := w.debris_pieces.map (fun d => env.debrisUpdate d dt env.floorY)
  let culled := upd.map (fun d =>
    if d.active ∧ (d.cx - player_x) * (d.cx - player_x)
        + (d.cz - player_z) * (d.cz - player_z) > 900 * 900
    then { d with active := false } else d)
  let live := culled.filter (fun d => d.active)
  { w with debris_pieces := if live.length > 12000 then live.drop (live.length - 12000) else live }

/-! ### Collision resolver (world.py `check_collision`)

Query coordinates are rationals; the `math.isfinite` guard of the source
(non-finite input returns blocked) has no rational counterpart, so the model
covers exactly the finite queries the claims speak about.  `player_radius`
is the literal 15.0 of world.py:441. -/

/-- `HALLWAY_WIDTH` for a hallway, the literal 60 for a doorway, 0 when the
wall is solid (world.py:464). -/
def openingWidth (env : Env) : Option Door → ℚ
  | some .hallway => env.hallwayWidth
  | some .doorway => 60
  | none => 0

/-- The per-wall solidity test of `check_collision` (world.py:471 and 502):
`ws`/`we` bound the wall span on its along-axis, `wline` is its cross-axis
line, and `along`/`cross` are the query's coordinates on those axes.  With
an opening, only the two strips flanking it count, each cut short of the
opening edge by the player radius; without one, the whole span extended by
the radius counts. -/
def wall_span_solid (env : Env) (ow : ℚ) (ws we wline along cross : ℚ) : Bool :=
  let half_thick := env.wallThickness / 2
  let r : ℚ := 15
  if ow > 0 then
    let opening_start := ws + ((env.pillarSpacing : ℚ) - ow) / 2
    let opening_end := opening_start + ow
    decide (|cross - wline| < half_thick + r) &&
      (decide (ws ≤ along ∧ along ≤ opening_start - r) ||
       decide (opening_end + r ≤ along ∧ along ≤ we))
  else
    decide (ws - r ≤ along ∧ along ≤ we + r ∧ |cross - wline| < half_thick + r)

/-- Horizontal-wall branch body (world.py:459): doorway classification plus
the span test along x at line z. -/
def horiz_solid (env : Env) (w : World) (gx gz : Int) (x z : ℚ) : Bool :=
  let S := env.pillarSpacing
  let ow := openingWidth env (get_doorway_type env w gx gz (gx + S) gz)
  wall_span_solid env ow (gx : ℚ) ((gx + S : Int) : ℚ) (gz : ℚ) x z

/-- Vertical-wall branch body (world.py:490): span test along z at line x. -/
def vert_solid (env : Env) (w : World) (gx gz : Int) (x z : ℚ) : Bool :=
  let S := env.pillarSpacing
  let ow := openingWidth env (get_doorway_type env w gx gz gx (gz + S))
  wall_span_solid env ow (gz : ℚ) ((gz + S : Int) : ℚ) (gx : ℚ) z x

/-- Pillar check of a cell (world.py:515): closest-point-on-AABB distance
against the player radius. -/
def cell_pillar (env : Env) (w : World) (gx gz : Int) (x z : ℚ) : Bool × World :=
  let offset := env.pillarSpacing.fdiv 2
  let px := gx + offset
  let pz := gz + offset
  let hp := has_pillar_at env w px pz
  let w := hp.2
  if hp.1 ∧ ((px, pz) : PillarKey) ∉ w.destroyed_pillars then
    let pillar_min_x : ℚ := (px : ℚ)
    let pillar_max_x : ℚ := (px : ℚ) + env.pillarSize
    let pillar_min_z : ℚ := (pz : ℚ)
    let pillar_max_z : ℚ := (pz : ℚ) + env.pillarSize
    let closest_x := max pillar_min_x (min x pillar_max_x)
    let closest_z := max pillar_min_z (min z pillar_max_z)
    let dist_sq := (x - closest_x) * (x - closest_x) + (z - closest_z) * (z - closest_z)
    (decide (dist_sq < 15 * 15), w)
  else (false, w)

/-- Vertical-wall check then pillar check of a cell; a destroyed vertical
wall `continue`s, skipping the pillar check of this cell (world.py:487). -/
def cell_vert (env : Env) (w : World) (gx gz : Int) (x z : ℚ) : Bool × World :=
  let S := env.pillarSpacing
  let hv := has_wall_between env w gx gz gx (gz + S)
  let w := hv.2
  if hv.1 then
    if mkWallKey gx gz gx (gz + S) ∈ w.destroyed_walls then (false, w)
    else if vert_solid env w gx gz x z then (true, w)
    else cell_pillar env w gx gz x z
  else cell_pillar env w gx gz x z

/-- One loop-body iteration of `check_collision` for a lattice cell: the
horizontal wall, then the vertical wall, then the pillar; a destroyed
horizontal wall `continue`s, skipping the rest of this cell
(world.py:456). -/
def cell_blocked (env : Env) (w : World) (gx gz : Int) (x z : ℚ) : Bool × World :=
  let S := env.pillarSpacing
  let hh := has_wall_between env w gx gz (gx + S) gz
  let w := hh.2
  if hh.1 then
    if mkWallKey gx gz (gx + S) gz ∈ w.destroyed_walls then (false, w)
    else if horiz_solid env w gx gz x z then (true, w)
    else cell_vert env w gx gz x z
  else cell_vert env w gx gz x z

/-- The lattice cells `check_collision` enumerates: x-major iteration over
`range(min_grid, max_grid + spacing, spacing)` in both axes
(world.py:445). -/
def grid_cells (S : Int) (x z : ℚ) : List (Int × Int) :=
  let cr : ℚ := ((S * 2 : Int) : ℚ)
  let ax := qfloor ((x - cr) / (S : ℚ))
  let bx := qfloor ((x + cr) / (S : ℚ))
  let az := qfloor ((z - cr) / (S : ℚ))
  let bz := qfloor ((z + cr) / (S : ℚ))
  let xs := (List.range (bx - ax + 1).toNat).map (fun i => (ax + (i : Int)) * S)
  let zs := (List.range (bz - az + 1).toNat).map (fun j => (az + (j : Int)) * S)
  xs.foldr (fun gx acc => zs.map (fun gz => (gx, gz)) ++ acc) []

/-- The cell loop with its early `return True` (world.py:450). -/
def collide_cells (env : Env) (x z : ℚ) : List (Int × Int) → World → Bool × World
  | [], w => (false, w)
  | c :: rest, w =>
    let r := cell_blocked env w c.1 c.2 x z
    if r.1 then (true, r.2) else collide_cells env x z rest r.2

/-- `check_collision(x, z)` (world.py:436) on finite queries. -/
def check_collision (env : Env) (w : World) (x z : ℚ) : Bool × World :=
  collide_cells env x z (grid_cells env.pillarSpacing x z) w

/-! ### State serializer (world.py `get_state_for_save` / `load_state`)

The save document: composite dict keys are stringified with Python str;
the destroyed sets are lists of structured points (the list/tuple conversion
of the source is the identity on those); debris is flattened to records. -/

structure DebrisRec where
  cx : ℚ
  cy : ℚ
  cz : ℚ
  color : Int × Int × Int
  vx : ℚ
  vy : ℚ
  vz : ℚ
  is_settled : Bool

deriving DecidableEq, Inhabited

structure SaveDoc where
  seed : Int
  wall_cache : List (List Char × Bool)
  pillar_cache : List (List Char × Bool)
  destroyed_walls : List WallKey
  destroyed_pillars : List PillarKey
  destroyed_lamps : List (Int × Int)
  triggered_traps : List (Int × Int)
  wall_states : List (List Char × List Char)
  wall_health : List (List Char × ℚ)
  wall_cracks : List (List Char × List Crack)
  pre_damaged_walls : List (List Char × ℚ)
  debris_pieces : List DebrisRec

/-- `get_state_for_save` (world.py:541).  Dict keys become their str form;
active debris is flattened and truncated with `[:1000]`, keeping the first
1000 entries of the list. -/
def get_state_for_save (w : World) : SaveDoc :=
  { seed := w.world_seed,
    wall_cache := w.wall_cache.map (fun p => (printWallKey p.1, p.2)),
    pillar_cache := w.pillar_cache.map (fun p => (printPillarKey p.1, p.2)),
    destroyed_walls := w.destroyed_walls,
    destroyed_pillars := w.destroyed_pillars,
    destroyed_lamps := w.destroyed_lamps,
    triggered_traps := w.triggered_traps,
    wall_states := w.wall_states.map (fun p => (printWallKey p.1, p.2.pyName)),
    wall_health := w.wall_health.map (fun p => (printWallKey p.1, p.2)),
    wall_cracks := w.wall_cracks.map (fun p => (printWallKey p.1, p.2)),
    pre_damaged_walls := w.pre_damaged_walls.map (fun p => (printWallKey p.1, p.2)),
    debris_pieces :=
      ((w.debris_pieces.filter (fun d => d.active)).map (fun d =>
        ({ cx := d.cx, cy := d.cy, cz := d.cz, color := d.color,
           vx := d.vx, vy := d.vy, vz := d.vz,
           is_settled := d.is_settled } : DebrisRec))).take 1000 }

/-- The dict-rebuilding loops of `load_state`: each stored key string goes
through `eval(k_str)`.  On a string that is not one of the tuple literals
str produces, eval either raises (aborting the whole `load_state` call, as
there is no try/except around it) or evaluates attacker-chosen code; both
outcomes are modelled as the single error of this loader, and neither skips
just the offending entry.  Values are transformed by `f` (`WallState[name]`
for `wall_states`, which also raises on an unknown name). -/
def load_wall_keyed {β γ : Type} (f : β → Option γ) :
    List (List Char × β) → List (WallKey × γ) → Except Unit (List (WallKey × γ))
  | [], acc => .ok acc
  | (s, v) :: rest, acc =>
    match pyEvalWallKey? s, f v with
    | some k, some v' => load_wall_keyed f rest (dset acc k v')
    | _, _ => .error ()

def load_pillar_keyed :
    List (List Char × Bool) → List (PillarKey × Bool) → Except Unit (List (PillarKey × Bool))
  | [], acc => .ok acc
  | (s, v) :: rest, acc =>
    match pyEvalPillarKey? s with
    | some k => load_pillar_keyed rest (dset acc k v)
    | none => .error ()

/-- `load_state(data)` (world.py:579): rebuilds every cache and store from
the document (full replacement), reconstructs debris (settled pieces get no
velocity), and clears only the zone cache. -/
def load_state (w : World) (doc : SaveDoc) : Except Unit World := do
  let wc ← load_wall_keyed some doc.wall_cache []
  let pc ← load_pillar_keyed doc.pillar_cache []
  let dw := pyset doc.destroyed_walls
  let dp := pyset doc.destroyed_pillars
  let dl := pyset doc.destroyed_lamps
  let tt := pyset doc.triggered_traps
  let ws ← load_wall_keyed WallState.ofPyName doc.wall_states []
  let wh ← load_wall_keyed some doc.wall_health []
  let wcr ← load_wall_keyed some doc.wall_cracks []
  let pd ← load_wall_keyed some doc.pre_damaged_walls []
  let debris := doc.debris_pieces.map (fun r =>
    Debris.make (r.cx, r.cy, r.cz) r.color
      (if r.is_settled then none else some (r.vx, r.vy, r.vz)))
  .ok { w with
        world_seed := doc.seed,
        wall_cache := wc,
        pillar_cache := pc,
        destroyed_walls := dw,
        destroyed_pillars := dp,
        destroyed_lamps := dl,
        triggered_traps := tt,
        wall_states := ws,
        wall_health := wh,
        wall_cracks := wcr,
        pre_damaged_walls := pd,
        debris_pieces := debris,
        zone_cache := [] }

/-! ### Auxiliary predicates and concrete instances used by the claims -/

unseal Rat.add Rat.mul Rat.sub Rat.inv

deriving instance DecidableEq for Except

/-- The state a surviving wall is left in by `hit_wall`, as a function of
its new health and previous state (the elif ladder of world.py:256). -/
def nextState (h : ℚ) (st : WallState) : WallState :=
  if h ≤ q033 ∧ st ≠ .FRACTURED then .FRACTURED
  else if h ≤ q066 ∧ st = .INTACT then .CRACKED
  else st

/-- A wall with tracked damage: not destroyed, with stored health `h` and
stored state `st`. -/
def WallCfg (w : World) (key : WallKey) (h : ℚ) (st : WallState) : Prop :=
  key ∉ w.destroyed_walls ∧ dget? w.wall_health key = some h ∧
    dget? w.wall_states key = some st

/-- Frame of `check_collision`: the stores it never touches are unchanged;
the five discovery stores only grow (existing entries are preserved), and
every wall newly added to `destroyed_walls` carries a recorded pre-damage
amount below the float 0.2. -/
def FrameOK (w w' : World) : Prop :=
  w'.world_seed = w.world_seed ∧
  w'.wall_health = w.wall_health ∧
  w'.wall_states = w.wall_states ∧
  w'.wall_cracks = w.wall_cracks ∧
  w'.debris_pieces = w.debris_pieces ∧
  w'.destroyed_pillars = w.destroyed_pillars ∧
  w'.destroyed_lamps = w.destroyed_lamps ∧
  w'.triggered_traps = w.triggered_traps ∧
  w'.lamp_cache = w.lamp_cache ∧
  w'.trap_cache = w.trap_cache ∧
  w'.spawned_rubble = w.spawned_rubble ∧
  w'.rcur = w.rcur ∧
  (∀ k v, dget? w.wall_cache k = some v → dget? w'.wall_cache k = some v) ∧
  (∀ k v, dget? w.pillar_cache k = some v → dget? w'.pillar_cache k = some v) ∧
  (∀ k v, dget? w.zone_cache k = some v → dget? w'.zone_cache k = some v) ∧
  (∀ k v, dget? w.pre_damaged_walls k = some v → dget? w'.pre_damaged_walls k = some v) ∧
  w.destroyed_walls ⊆ w'.destroyed_walls ∧
  (∀ k, k ∈ w'.destroyed_walls → k ∉ w.destroyed_walls →
    ∃ dmg, dget? w'.pre_damaged_walls k = some dmg ∧ dmg < q02)

/-- Well-formedness every world reachable through the Python class enjoys:
dict key lists have no duplicates (Python dicts cannot hold any). -/
def WFWorld (w : World) : Prop :=
  (w.wall_cache.map Prod.fst).Nodup ∧ (w.pillar_cache.map Prod.fst).Nodup ∧
  (w.wall_states.map Prod.fst).Nodup ∧ (w.wall_health.map Prod.fst).Nodup ∧
  (w.wall_cracks.map Prod.fst).Nodup ∧ (w.pre_damaged_walls.map Prod.fst).Nodup

instance (w : World) : Decidable (WFWorld w) := by
  rw [WFWorld]
  infer_instance

/-- A concrete environment for closed evaluations: spacing 120, wall
thickness 10, hallway width 60, no pillars, every `random.Random(s)` stream
constantly 0.1 (so every doorway roll lands below 0.3: a hallway), zero
decay chance. -/
def envX : Env :=
  { pillarSpacing := 120, pillarSize := 20, wallThickness := 10, zoneSize := 480,
    hallwayWidth := 60, pillarMode := .pnone, wallHeight := 100, floorY := 0,
    wallColor := (200, 200, 200), pillarColor := (150, 150, 150),
    rand := fun _ _ => 1 / 10, pyhash := fun _ _ _ => 0,
    zoneProps := fun _ _ _ => { decay_chance := 0 },
    grand := fun _ => 1 / 2, grandInt := fun _ a _ => a,
    debrisUpdate := fun d _ _ => d }

def wX : World := World.init 0

def keyX : WallKey := ((0, 0), (120, 0))

/-- 1001 active debris pieces; the i-th appended has cx = i, so the piece
with cx = 1000 is the most recently appended one. -/
def manyDebris : List Debris :=
  (List.range 1001).map (fun i =>
    { cx := (i : ℚ), cy := 0, cz := 0, color := (0, 0, 0),
      vx := 0, vy := 0, vz := 0, is_settled := true, active := true })

def w1001 : World := { World.init 0 with debris_pieces := manyDebris }

/-- A save document holding one well-formed wall_cache entry followed by one
whose key string is not a tuple literal (Python: eval on it raises
SyntaxError, propagating out of load_state). -/
def docBadKey : SaveDoc :=
  { seed := 0,
    wall_cache := [(printWallKey keyX, true), ('x' :: ')' :: [], true)],
    pillar_cache := [], destroyed_walls := [], destroyed_pillars := [],
    destroyed_lamps := [], triggered_traps := [], wall_states := [],
    wall_health := [], wall_cracks := [], pre_damaged_walls := [],
    debris_pieces := [] }

/-- A populated world exercising every store the save/load round trip
covers. -/
def wSave : World :=
  { World.init 7 with
    wall_cache := [(keyX, true), (((-120, 0), (0, 0)), true)],
    pillar_cache := [((60, 60), false), ((180, 60), true)],
    destroyed_walls := [keyX],
    destroyed_pillars := [(60, 60)],
    wall_states := [(keyX, .DESTROYED), (((-120, 0), (0, 0)), .CRACKED)],
    wall_health := [(keyX, -1/2), (((-120, 0), (0, 0)), 1/2)],
    wall_cracks := [(((-120, 0), (0, 0)), [(1/2, 1/2, 1, 1/4)])],
    pre_damaged_walls := [(keyX, 3/10)],
    zone_cache := [((0, 0), { decay_chance := 1 })] }

/-- The decay seed of the pre-damage roll (world.py:144). -/
def decaySeed (x1 z1 x2 z2 seed : Int) : Int :=
  x1 * 7919 + z1 * 6577 + x2 * 4993 + z2 * 3571 + seed * 9973

/-- The pre_damaged_walls entry a fresh discovery produces, as a function of
the seed alone (used to state determinism). -/
def preDamageOutcome (env : Env) (seed : Int) (key : WallKey) (x1 z1 x2 z2 : Int) :
    List (WallKey × ℚ) :=
  let zone := get_zone_at env (((x1 : ℚ) + x2) / 2) (((z1 : ℚ) + z2) / 2)
  let props := env.zoneProps zone.1 zone.2 seed
  let ds := decaySeed x1 z1 x2 z2 seed
  if env.rand ds 0 < props.decay_chance
  then [(key, (1 / 2 : ℚ) * env.rand ds 1)] else []

/-- The destroyed_walls list a fresh discovery produces, as a function of
the seed alone. -/
def preDestroyOutcome (env : Env) (seed : Int) (key : WallKey) (x1 z1 x2 z2 : Int) :
    List WallKey :=
  let zone := get_zone_at env (((x1 : ℚ) + x2) / 2) (((z1 : ℚ) + z2) / 2)
  let props := env.zoneProps zone.1 zone.2 seed
  let ds := decaySeed x1 z1 x2 z2 seed
  if env.rand ds 0 < props.decay_chance
  then (if (1 / 2 : ℚ) * env.rand ds 1 < q02 then [key] else []) else []

/-! ## Theorems -/

theorem printNatAux_congr :
    ∀ (f1 : Nat), ∀ (f2 n : Nat), n < f1 → n < f2 →
      printNatAux f1 n = printNatAux f2 n := by
  intro f1
  induction f1 with
  | zero => intro f2 n h1; omega
  | succ f ih =>
    intro f2 n h1 h2
    cases f2 with
    | zero => omega
    | succ f' =>
      rw [printNatAux, printNatAux]
      by_cases h : n < 10
      · rw [if_pos h, if_pos h]
      · rw [if_neg h, if_neg h]
        have hd : n / 10 < n := Nat.div_lt_self (by omega) (by omega)
        rw [ih f' (n / 10) (by omega) (by omega)]

/-- The defining recurrence of `printNat`. -/
theorem printNat_eq (n : Nat) :
    printNat n = if n < 10 then [digitChar n]
                 else printNat (n / 10) ++ [digitChar (n % 10)] := by
  rw [printNat, printNatAux]
  by_cases h : n < 10
  · rw [if_pos h, if_pos h]
  · rw [if_neg h, if_neg h]
    have hd : n / 10 < n := Nat.div_lt_self (by omega) (by omega)
    rw [printNat, printNatAux_congr n (n / 10 + 1) (n / 10) (by omega) (by omega)]

theorem digitChar_isDigit {n : Nat} (h : n < 10) : (digitChar n).isDigit = true := by
  interval_cases n <;> decide

theorem digitChar_toNat {n : Nat} (h : n < 10) : (digitChar n).toNat - 48 = n := by
  interval_cases n <;> decide

theorem parseDigits_printNat (n : Nat) :
    ∀ (rest : List Char) (acc : Nat),
      parseDigits (printNat n ++ rest) acc =
        parseDigits rest (acc * 10 ^ (printNat n).length + n) := by
  induction n using Nat.strong_induction_on with
  | _ n ih =>
    intro rest acc
    by_cases h : n < 10
    · rw [printNat_eq, if_pos h]
      simp only [List.cons_append, List.nil_append, parseDigits, digitChar_isDigit h,
        if_pos, List.length_cons, List.length_nil]
      rw [digitChar_toNat h]
      norm_num
    · rw [printNat_eq, if_neg h]
      rw [List.append_assoc]
      rw [ih (n / 10) (Nat.div_lt_self (by omega) (by omega))]
      have hm : n % 10 < 10 := Nat.mod_lt _ (by omega)
      simp only [List.cons_append, List.nil_append, parseDigits, digitChar_isDigit hm, if_pos]
      rw [digitChar_toNat hm]
      rw [List.length_append, List.length_cons, List.length_nil]
      have hdm := Nat.div_add_mod n 10
      have : acc * 10 ^ ((printNat (n / 10)).length + 1) + n
          = (acc * 10 ^ (printNat (n / 10)).length + n / 10) * 10 + n % 10 := by
        rw [pow_succ]
        ring_nf
        omega
      rw [this]
      simp

theorem headIsDigit_printNat (n : Nat) :
    ∀ (rest : List Char), headIsDigit (printNat n ++ rest) = true := by
  induction n using Nat.strong_induction_on with
  | _ n ih =>
    intro rest
    by_cases h : n < 10
    · rw [printNat_eq, if_pos h]
      simp [headIsDigit, digitChar_isDigit h]
    · rw [printNat_eq, if_neg h]
      rw [List.append_assoc]
      exact ih (n / 10) (Nat.div_lt_self (by omega) (by omega)) _

theorem printNat_ne_nil (n : Nat) : printNat n ≠ [] := by
  rw [printNat_eq]
  split
  · simp
  · simp

theorem parseDigits_stop (n : Nat) (rest : List Char) (h : headIsDigit rest = false) :
    parseDigits rest n = (n, rest) := by
  cases rest with
  | nil => rfl
  | cons c t =>
    simp only [headIsDigit] at h
    simp [parseDigits, h]

theorem parseNat?_print (n : Nat) (rest : List Char) (h : headIsDigit rest = false) :
    parseNat? (printNat n ++ rest) = some (n, rest) := by
  cases hpn : printNat n with
  | nil => exact absurd hpn (printNat_ne_nil n)
  | cons c t =>
    have hd : c.isDigit = true := by
      have := headIsDigit_printNat n rest
      rw [hpn] at this
      simpa [headIsDigit] using this
    show parseNat? (c :: (t ++ rest)) = some (n, rest)
    simp only [parseNat?, hd, if_pos]
    have he : (c :: (t ++ rest)) = printNat n ++ rest := by rw [hpn]; simp
    rw [he, parseDigits_printNat n rest 0]
    have h0 : 0 * 10 ^ (printNat n).length + n = n := by ring
    rw [h0, parseDigits_stop n rest h]

theorem isDigit_ne_dash {c : Char} (h : c.isDigit = true) : c ≠ '-' := by
  intro hc
  subst hc
  exact absurd h (by decide)

theorem parseInt?_print (i : Int) (rest : List Char) (h : headIsDigit rest = false) :
    parseInt? (printInt i ++ rest) = some (i, rest) := by
  by_cases hi : i < 0
  · rw [printInt, if_pos hi]
    show parseInt? ('-' :: (printNat i.natAbs ++ rest)) = some (i, rest)
    simp only [parseInt?, if_pos rfl]
    rw [parseNat?_print _ _ h]
    have hn : -(i.natAbs : Int) = i := by omega
    simp only [Option.map_some', hn]
    simp
  · rw [printInt, if_neg hi]
    cases hpn : printNat i.natAbs with
    | nil => exact absurd hpn (printNat_ne_nil _)
    | cons c t =>
      have hd : c.isDigit = true := by
        have := headIsDigit_printNat i.natAbs rest
        rw [hpn] at this
        simpa [headIsDigit] using this
      show parseInt? (c :: (t ++ rest)) = some (i, rest)
      simp only [parseInt?, if_neg (isDigit_ne_dash hd)]
      have he : (c :: (t ++ rest)) = printNat i.natAbs ++ rest := by rw [hpn]; simp
      rw [he, parseNat?_print _ _ h]
      have hn : (i.natAbs : Int) = i := by omega
      simp [hn]

/-! ### Composite keys and their Python string forms

A pillar key is one integer grid coordinate; a wall key is the tuple of two
grid coordinates canonicalized by `tuple(sorted([(x1, z1), (x2, z2)]))`.
`str` of such a tuple yields for instance the characters of
((0, 0), (120, 0)); `pyEval...?` is the strict structured parser modelling
what Python's eval computes on exactly those tuple-literal strings. -/

theorem parsePillarRest?_print (p : PillarKey) (rest : List Char) :
    parsePillarRest? (printPillarKey p ++ rest) = some (p, rest) := by
  show parsePillarRest?
      ('(' :: (printInt p.1 ++ ',' :: ' ' :: printInt p.2 ++ [')'] ++ rest)) = some (p, rest)
  rw [parsePillarRest?]
  simp only [expectChar, if_pos rfl, if_true, Option.bind_eq_bind, Option.some_bind]
  rw [show (printInt p.1 ++ ',' :: ' ' :: printInt p.2 ++ [')'] ++ rest)
      = printInt p.1 ++ (',' :: ' ' :: (printInt p.2 ++ (')' :: rest))) by simp]
  rw [parseInt?_print _ _ (by rfl)]
  simp only [Option.some_bind, expectChar, if_pos rfl, if_true]
  rw [parseInt?_print _ _ (by rfl)]
  simp only [Option.some_bind, expectChar, if_pos rfl, if_true]
  rfl

theorem parseWallRest?_print (k : WallKey) (rest : List Char) :
    parseWallRest? (printWallKey k ++ rest) = some (k, rest) := by
  show parseWallRest?
      ('(' :: (printPillarKey k.1 ++ ',' :: ' ' :: printPillarKey k.2 ++ [')'] ++ rest))
      = some (k, rest)
  rw [parseWallRest?]
  simp only [expectChar, if_pos rfl, if_true, Option.bind_eq_bind, Option.some_bind]
  rw [show (printPillarKey k.1 ++ ',' :: ' ' :: printPillarKey k.2 ++ [')'] ++ rest)
      = printPillarKey k.1 ++ (',' :: ' ' :: (printPillarKey k.2 ++ (')' :: rest))) by simp]
  rw [parsePillarRest?_print]
  simp only [Option.some_bind, expectChar, if_pos rfl, if_true]
  rw [parsePillarRest?_print]
  simp only [Option.some_bind, expectChar, if_pos rfl, if_true]
  rfl

theorem pyEvalPillarKey?_print (p : PillarKey) :
    pyEvalPillarKey? (printPillarKey p) = some p := by
  rw [pyEvalPillarKey?]
  rw [show printPillarKey p = printPillarKey p ++ [] by simp]
  rw [parsePillarRest?_print]

theorem pyEvalWallKey?_print (k : WallKey) :
    pyEvalWallKey? (printWallKey k) = some k := by
  rw [pyEvalWallKey?]
  rw [show printWallKey k = printWallKey k ++ [] by simp]
  rw [parseWallRest?_print]

theorem printWallKey_injective : Function.Injective printWallKey := by
  intro a b h
  have ha := pyEvalWallKey?_print a
  rw [h, pyEvalWallKey?_print b] at ha
  exact (Option.some.injEq _ _).mp ha.symm

theorem printPillarKey_injective : Function.Injective printPillarKey := by
  intro a b h
  have ha := pyEvalPillarKey?_print a
  rw [h, pyEvalPillarKey?_print b] at ha
  exact (Option.some.injEq _ _).mp ha.symm

/-! ### Python dicts and sets

`dset` is `m[k] = v` (update in place if the key exists, else append in
insertion order); `dget?` is `m.get(k)`; `sadd` is `s.add(k)`. -/

@[simp] theorem dget?_nil {κ β : Type} [DecidableEq κ] (k : κ) :
    dget? ([] : List (κ × β)) k = none := rfl

@[simp] theorem dget?_dset_self {κ β : Type} [DecidableEq κ]
    (m : List (κ × β)) (k : κ) (v : β) : dget? (dset m k v) k = some v := by
  induction m with
  | nil => simp [dset, dget?]
  | cons p rest ih =>
    rw [dset]
    by_cases h : p.1 = k
    · rw [if_pos h]
      simp [dget?]
    · rw [if_neg h]
      rw [dget?, if_neg h]
      exact ih

theorem dget?_dset_ne {κ β : Type} [DecidableEq κ]
    (m : List (κ × β)) (k k' : κ) (v : β) (h : k' ≠ k) :
    dget? (dset m k v) k' = dget? m k' := by
  have hne : k ≠ k' := fun he => h he.symm
  induction m with
  | nil =>
    rw [dset]
    simp only [dget?]
    rw [if_neg hne]
  | cons p rest ih =>
    rw [dset]
    by_cases hp : p.1 = k
    · rw [if_pos hp]
      rw [dget?, dget?, if_neg (fun he => h he.symm), if_neg]
      rw [hp]
      exact fun he => h he.symm
    · rw [if_neg hp]
      rw [dget?, dget?]
      by_cases hq : p.1 = k'
      · rw [if_pos hq, if_pos hq]
      · rw [if_neg hq, if_neg hq]
        exact ih

theorem dget?_dset_preserve {κ β : Type} [DecidableEq κ]
    (m : List (κ × β)) (k k' : κ) (v v' : β)
    (hfresh : dget? m k = none) (hold : dget? m k' = some v') :
    dget? (dset m k v) k' = some v' := by
  by_cases h : k' = k
  · rw [h] at hold
    rw [hold] at hfresh
    exact absurd hfresh (by simp)
  · rw [dget?_dset_ne m k k' v h]
    exact hold

@[simp] theorem mem_sadd {α : Type} [DecidableEq α] (s : List α) (k a : α) :
    a ∈ sadd s k ↔ a ∈ s ∨ a = k := by
  rw [sadd]
  by_cases h : k ∈ s
  · rw [if_pos h]
    constructor
    · exact Or.inl
    · rintro (ha | rfl)
      · exact ha
      · exact h
  · rw [if_neg h]
    simp

theorem sadd_subset {α : Type} [DecidableEq α] (s : List α) (k : α) :
    s ⊆ sadd s k := by
  intro a ha
  rw [mem_sadd]
  exact Or.inl ha

theorem mem_foldl_sadd {α : Type} [DecidableEq α] (l : List α) :
    ∀ (acc : List α) (a : α), a ∈ l.foldl sadd acc ↔ a ∈ acc ∨ a ∈ l := by
  induction l with
  | nil => simp
  | cons x rest ih =>
    intro acc a
    rw [List.foldl_cons, ih, mem_sadd]
    constructor
    · rintro ((h | rfl) | h)
      · exact Or.inl h
      · simp
      · simp [h]
    · rintro (h | h)
      · exact Or.inl (Or.inl h)
      · rcases List.mem_cons.mp h with rfl | h
        · exact Or.inl (Or.inr rfl)
        · exact Or.inr h

@[simp] theorem mem_pyset {α : Type} [DecidableEq α] (l : List α) (a : α) :
    a ∈ pyset l ↔ a ∈ l := by
  rw [pyset, mem_foldl_sadd]
  simp

/-! ### Constants of world.py modelled exactly

`q02`, `q033`, `q066` are the binary64 values of the Python float literals
0.2, 0.33 and 0.66; `piF` is the binary64 value of math.pi. -/

@[simp] theorem WallState.ofPyName_pyName (s : WallState) :
    WallState.ofPyName s.pyName = some s := by
  cases s <;> decide

/-! ### Structure-projection lemmas for the mutating operations -/

@[simp] theorem add_crack_destroyed (env : Env) (w : World) (key : WallKey) :
    (add_crack env w key).destroyed_walls = w.destroyed_walls := rfl

@[simp] theorem add_crack_wall_health (env : Env) (w : World) (key : WallKey) :
    (add_crack env w key).wall_health = w.wall_health := rfl

@[simp] theorem add_crack_wall_states (env : Env) (w : World) (key : WallKey) :
    (add_crack env w key).wall_states = w.wall_states := rfl

@[simp] theorem add_crack_debris (env : Env) (w : World) (key : WallKey) :
    (add_crack env w key).debris_pieces = w.debris_pieces := rfl

@[simp] theorem spawn_debris_destroyed (env : Env) (w : World) (key : WallKey) :
    (spawn_wall_debris env w key).destroyed_walls = w.destroyed_walls := rfl

@[simp] theorem spawn_debris_wall_health (env : Env) (w : World) (key : WallKey) :
    (spawn_wall_debris env w key).wall_health = w.wall_health := rfl

@[simp] theorem spawn_debris_wall_states (env : Env) (w : World) (key : WallKey) :
    (spawn_wall_debris env w key).wall_states = w.wall_states := rfl

@[simp] theorem spawn_debris_length (env : Env) (w : World) (key : WallKey) :
    (spawn_wall_debris env w key).debris_pieces.length
      = w.debris_pieces.length + 150 := by
  simp [spawn_wall_debris]

/-! ### hit_wall step lemmas -/

theorem hit_wall_noop (env : Env) (w : World) (key : WallKey) (d : ℚ)
    (h : key ∈ w.destroyed_walls) : hit_wall env w key d = (false, w) := by
  simp [hit_wall, h]

theorem hit_wall_progress (env : Env) (w : World) (key : WallKey) (d h : ℚ)
    (st : WallState)
    (h1 : key ∉ w.destroyed_walls) (h2 : dget? w.wall_health key = some h)
    (h3 : dget? w.wall_states key = some st) (hd : ¬(h - d ≤ 0)) :
    (hit_wall env w key d).1 = false ∧
    WallCfg (hit_wall env w key d).2 key (h - d) (nextState (h - d) st) ∧
    (hit_wall env w key d).2.destroyed_walls = w.destroyed_walls ∧
    (hit_wall env w key d).2.debris_pieces = w.debris_pieces := by
  simp only [hit_wall, if_neg h1, h2, Option.isNone_some, Bool.false_eq_true, if_false,
    Option.getD_some, if_neg hd, WallCfg, nextState]
  by_cases hb1 : h - d ≤ q033 ∧ st ≠ WallState.FRACTURED
  · rw [if_pos (by simpa [h3] using hb1), if_pos hb1]
    simp [h1, h2, h3, dget?_dset_self]
  · rw [if_neg (by simpa [h3] using hb1), if_neg hb1]
    by_cases hb2 : h - d ≤ q066 ∧ st = WallState.INTACT
    · rw [if_pos (by simpa [h3] using hb2), if_pos hb2]
      simp [h1, h2, h3, dget?_dset_self]
    · rw [if_neg (by simpa [h3] using hb2), if_neg hb2]
      simp [h1, h2, h3, dget?_dset_self]

theorem hit_wall_kill (env : Env) (w : World) (key : WallKey) (d h : ℚ)
    (h1 : key ∉ w.destroyed_walls) (h2 : dget? w.wall_health key = some h)
    (hd : h - d ≤ 0) :
    (hit_wall env w key d).1 = true ∧
    key ∈ (hit_wall env w key d).2.destroyed_walls ∧
    dget? (hit_wall env w key d).2.wall_health key = some (h - d) ∧
    get_wall_state (hit_wall env w key d).2 key = .DESTROYED ∧
    get_wall_health (hit_wall env w key d).2 key = 0 ∧
    (hit_wall env w key d).2.debris_pieces.length = w.debris_pieces.length + 150 := by
  simp only [hit_wall, if_neg h1, h2, Option.isNone_some, Bool.false_eq_true, if_false,
    Option.getD_some, if_pos hd]
  refine ⟨trivial, by simp, by simp [dget?_dset_self], ?_, ?_, by simp⟩
  · simp [get_wall_state]
  · simp [get_wall_health]

theorem hit_wall_fresh (env : Env) (w : World) (key : WallKey) (d : ℚ)
    (h1 : key ∉ w.destroyed_walls) (h2 : dget? w.wall_health key = none) :
    hit_wall env w key d
      = hit_wall env
          { w with wall_health := dset w.wall_health key 1,
                   wall_states := dset w.wall_states key .INTACT } key d := by
  simp only [hit_wall, if_neg h1, h2, Option.isNone_none, if_true,
    dget?_dset_self, Option.isNone_some, Bool.false_eq_true, if_false]

theorem cfg_getters (w : World) (key : WallKey) (h : ℚ) (st : WallState)
    (hc : WallCfg w key h st) :
    get_wall_health w key = h ∧ get_wall_state w key = st := by
  obtain ⟨a, b, c⟩ := hc
  simp [get_wall_health, get_wall_state, a, b, c]

theorem dget?_map_print {β : Type} (l : List (WallKey × β)) (k : WallKey) :
    dget? (l.map (fun p => (printWallKey p.1, p.2))) (printWallKey k) = dget? l k := by
  induction l with
  | nil => rfl
  | cons p rest ih =>
    simp only [List.map_cons, dget?]
    by_cases h : p.1 = k
    · rw [if_pos (by rw [h]), if_pos h]
    · rw [if_neg (fun he => h (printWallKey_injective he)), if_neg h, ih]

/-- C3: starting from a wall key with no prior damage state, four successive
hit_wall(key, 0.25) calls yield health 0.75 with state still INTACT, then
0.50 with CRACKED, then 0.25 with FRACTURED, then 0.00 with the key in
destroyed_walls, state DESTROYED and debris spawned; hit_wall returns true
on exactly the fourth call, and every further hit_wall on that key is a
no-op returning false. -/
theorem C3_hit_wall_damage_ladder (env : Env) (w : World) (key : WallKey)
    (h1 : key ∉ w.destroyed_walls) (h2 : dget? w.wall_health key = none)
    (_h3 : dget? w.wall_states key = none) :
    let r1 := hit_wall env w key (1/4)
    let r2 := hit_wall env r1.2 key (1/4)
    let r3 := hit_wall env r2.2 key (1/4)
    let r4 := hit_wall env r3.2 key (1/4)
    (r1.1 = false ∧ get_wall_health r1.2 key = 3/4 ∧ get_wall_state r1.2 key = .INTACT) ∧
    (r2.1 = false ∧ get_wall_health r2.2 key = 1/2 ∧ get_wall_state r2.2 key = .CRACKED) ∧
    (r3.1 = false ∧ get_wall_health r3.2 key = 1/4 ∧ get_wall_state r3.2 key = .FRACTURED) ∧
    (r4.1 = true ∧ key ∈ r4.2.destroyed_walls ∧
      get_wall_state r4.2 key = .DESTROYED ∧ get_wall_health r4.2 key = 0 ∧
      r4.2.debris_pieces.length = w.debris_pieces.length + 150) ∧
    (∀ d, hit_wall env r4.2 key d = (false, r4.2)) := by
  intro r1 r2 r3 r4
  have init := hit_wall_fresh env w key (1/4) h1 h2
  have hr1 : r1 = hit_wall env
      { w with wall_health := dset w.wall_health key 1,
               wall_states := dset w.wall_states key .INTACT } key (1/4) := init
  have s1 := hit_wall_progress env
      { w with wall_health := dset w.wall_health key 1,
               wall_states := dset w.wall_states key .INTACT } key (1/4) 1 .INTACT
      h1 (dget?_dset_self _ _ _) (dget?_dset_self _ _ _) (by norm_num)
  rw [← hr1] at s1
  obtain ⟨ret1, cfg1, des1, deb1⟩ := s1
  have e1 : (1 : ℚ) - 1/4 = 3/4 := by norm_num
  have en1 : nextState ((3:ℚ)/4) .INTACT = .INTACT := by decide
  rw [e1, en1] at cfg1
  have s2 := hit_wall_progress env r1.2 key (1/4) (3/4) .INTACT
      cfg1.1 cfg1.2.1 cfg1.2.2 (by norm_num)
  obtain ⟨ret2, cfg2, des2, deb2⟩ := s2
  have e2 : (3 : ℚ)/4 - 1/4 = 1/2 := by norm_num
  have en2 : nextState ((1:ℚ)/2) .INTACT = .CRACKED := by decide
  rw [e2, en2] at cfg2
  have s3 := hit_wall_progress env r2.2 key (1/4) (1/2) .CRACKED
      cfg2.1 cfg2.2.1 cfg2.2.2 (by norm_num)
  obtain ⟨ret3, cfg3, des3, deb3⟩ := s3
  have e3 : (1 : ℚ)/2 - 1/4 = 1/4 := by norm_num
  have en3 : nextState ((1:ℚ)/4) .CRACKED = .FRACTURED := by decide
  rw [e3, en3] at cfg3
  have s4 := hit_wall_kill env r3.2 key (1/4) (1/4)
      cfg3.1 cfg3.2.1 (by norm_num)
  obtain ⟨ret4, mem4, sto4, st4, hp4, deb4⟩ := s4
  refine ⟨⟨ret1, (cfg_getters _ _ _ _ cfg1).1, (cfg_getters _ _ _ _ cfg1).2⟩,
          ⟨ret2, (cfg_getters _ _ _ _ cfg2).1, (cfg_getters _ _ _ _ cfg2).2⟩,
          ⟨ret3, (cfg_getters _ _ _ _ cfg3).1, (cfg_getters _ _ _ _ cfg3).2⟩,
          ⟨ret4, mem4, st4, hp4, ?_⟩, ?_⟩
  · rw [deb4, deb3, deb2, deb1]
  · intro d
    exact hit_wall_noop env r4.2 key d mem4

theorem C3_hit_wall_damage_ladder_witness :
    (keyX ∉ wX.destroyed_walls ∧ dget? wX.wall_health keyX = none ∧
     dget? wX.wall_states keyX = none) ∧
    (let r1 := hit_wall envX wX keyX (1/4)
     let r2 := hit_wall envX r1.2 keyX (1/4)
     let r3 := hit_wall envX r2.2 keyX (1/4)
     let r4 := hit_wall envX r3.2 keyX (1/4)
     (r1.1 = false ∧ get_wall_health r1.2 keyX = 3/4 ∧ get_wall_state r1.2 keyX = .INTACT) ∧
     (r2.1 = false ∧ get_wall_health r2.2 keyX = 1/2 ∧ get_wall_state r2.2 keyX = .CRACKED) ∧
     (r3.1 = false ∧ get_wall_health r3.2 keyX = 1/4 ∧ get_wall_state r3.2 keyX = .FRACTURED) ∧
     (r4.1 = true ∧ keyX ∈ r4.2.destroyed_walls ∧
       get_wall_state r4.2 keyX = .DESTROYED ∧ get_wall_health r4.2 keyX = 0 ∧
       r4.2.debris_pieces.length = wX.debris_pieces.length + 150) ∧
     (∀ d, hit_wall envX r4.2 keyX d = (false, r4.2))) :=
  ⟨⟨by decide, rfl, rfl⟩,
   C3_hit_wall_damage_ladder envX wX keyX (by decide) rfl rfl⟩

/-- C4: membership in destroyed_walls makes get_wall_health report 0.0 and
get_wall_state report DESTROYED regardless of the wall_health and
wall_states maps, in every world, so in particular immediately after any
hit_wall or destroy_wall call returns. -/
theorem C4_destroyed_membership_overrides (env : Env) (w : World)
    (key k2 : WallKey) (d : ℚ) :
    (key ∈ w.destroyed_walls →
      get_wall_health w key = 0 ∧ get_wall_state w key = .DESTROYED) ∧
    (key ∈ (hit_wall env w k2 d).2.destroyed_walls →
      get_wall_health (hit_wall env w k2 d).2 key = 0 ∧
      get_wall_state (hit_wall env w k2 d).2 key = .DESTROYED) ∧
    (key ∈ (destroy_wall env w k2).destroyed_walls →
      get_wall_health (destroy_wall env w k2) key = 0 ∧
      get_wall_state (destroy_wall env w k2) key = .DESTROYED) := by
  have base : ∀ w' : World, key ∈ w'.destroyed_walls →
      get_wall_health w' key = 0 ∧ get_wall_state w' key = .DESTROYED := by
    intro w' h
    constructor
    · simp [get_wall_health, h]
    · simp [get_wall_state, h]
  exact ⟨base w, base _, base _⟩

theorem C4_destroyed_membership_overrides_witness :
    keyX ∈ wSave.destroyed_walls ∧
    get_wall_health wSave keyX = 0 ∧ get_wall_state wSave keyX = .DESTROYED := by
  have h := (C4_destroyed_membership_overrides envX wSave keyX keyX 1).1 (by decide)
  exact ⟨by decide, h.1, h.2⟩

/-- C10: a hit_wall call that drives health strictly below zero stores that
negative value in the wall_health map un-clamped, get_state_for_save writes
the same negative value, and get_wall_health still reports 0.0 through the
destroyed-set override. -/
theorem C10_negative_health_retained (env : Env) (w : World) (key : WallKey)
    (d : ℚ) (h1 : key ∉ w.destroyed_walls)
    (hneg : (dget? w.wall_health key).getD 1 - d < 0) :
    (hit_wall env w key d).1 = true ∧
    dget? (hit_wall env w key d).2.wall_health key
      = some ((dget? w.wall_health key).getD 1 - d) ∧
    (dget? w.wall_health key).getD 1 - d < 0 ∧
    dget? (get_state_for_save (hit_wall env w key d).2).wall_health (printWallKey key)
      = some ((dget? w.wall_health key).getD 1 - d) ∧
    get_wall_health (hit_wall env w key d).2 key = 0 := by
  have save_eq : ∀ w' : World,
      dget? (get_state_for_save w').wall_health (printWallKey key)
        = dget? w'.wall_health key := by
    intro w'
    exact dget?_map_print w'.wall_health key
  cases hh : dget? w.wall_health key with
  | some h =>
    rw [hh] at hneg
    simp only [Option.getD_some] at hneg
    have k := hit_wall_kill env w key d h h1 hh (le_of_lt hneg)
    simp only [Option.getD_some]
    exact ⟨k.1, k.2.2.1, hneg, by rw [save_eq]; exact k.2.2.1, k.2.2.2.2.1⟩
  | none =>
    rw [hh] at hneg
    simp only [Option.getD_none] at hneg
    have init := hit_wall_fresh env w key d h1 hh
    have k := hit_wall_kill env
        { w with wall_health := dset w.wall_health key 1,
                 wall_states := dset w.wall_states key .INTACT } key d 1
        h1 (dget?_dset_self _ _ _) (le_of_lt hneg)
    rw [← init] at k
    simp only [Option.getD_none]
    exact ⟨k.1, k.2.2.1, hneg, by rw [save_eq]; exact k.2.2.1, k.2.2.2.2.1⟩

theorem C10_negative_health_retained_witness :
    (keyX ∉ wX.destroyed_walls ∧ (dget? wX.wall_health keyX).getD 1 - 3/2 < 0) ∧
    ((hit_wall envX wX keyX (3/2)).1 = true ∧
     dget? (hit_wall envX wX keyX (3/2)).2.wall_health keyX
       = some ((dget? wX.wall_health keyX).getD 1 - 3/2) ∧
     (dget? wX.wall_health keyX).getD 1 - 3/2 < 0 ∧
     dget? (get_state_for_save (hit_wall envX wX keyX (3/2)).2).wall_health
         (printWallKey keyX)
       = some ((dget? wX.wall_health keyX).getD 1 - 3/2) ∧
     get_wall_health (hit_wall envX wX keyX (3/2)).2 keyX = 0) :=
  ⟨⟨by decide, by decide⟩,
   C10_negative_health_retained envX wX keyX (3/2) (by decide) (by decide)⟩

theorem filter_map_deactivate (px pz : ℚ) (l : List Debris) :
    ((l.map (fun d =>
        if d.active ∧ (d.cx - px) * (d.cx - px) + (d.cz - pz) * (d.cz - pz) > 900 * 900
        then { d with active := false } else d)).filter (fun d => d.active))
    = l.filter (fun d => d.active &&
        decide ((d.cx - px) * (d.cx - px) + (d.cz - pz) * (d.cz - pz) ≤ 900 * 900)) := by
  induction l with
  | nil => rfl
  | cons d rest ih =>
    simp only [List.map_cons, List.filter_cons]
    by_cases ha : d.active = true
    · by_cases hf : (d.cx - px) * (d.cx - px) + (d.cz - pz) * (d.cz - pz) > 900 * 900
      · have hcond : d.active = true ∧
            (d.cx - px) * (d.cx - px) + (d.cz - pz) * (d.cz - pz) > 900 * 900 := ⟨ha, hf⟩
        rw [if_pos hcond]
        have hle : ¬((d.cx - px) * (d.cx - px) + (d.cz - pz) * (d.cz - pz) ≤ 900 * 900) :=
          not_le.mpr hf
        simp [ha, hle, ih]
      · have hcond : ¬(d.active = true ∧
            (d.cx - px) * (d.cx - px) + (d.cz - pz) * (d.cz - pz) > 900 * 900) :=
          fun hc => hf hc.2
        rw [if_neg hcond]
        have hle : (d.cx - px) * (d.cx - px) + (d.cz - pz) * (d.cz - pz) ≤ 900 * 900 :=
          not_lt.mp hf
        simp [ha, hle, ih]
    · have hcond : ¬(d.active = true ∧
          (d.cx - px) * (d.cx - px) + (d.cz - pz) * (d.cz - pz) > 900 * 900) :=
        fun hc => ha hc.1
      rw [if_neg hcond]
      simp [ha, ih]

/-- C6: after update_debris returns, debris_pieces is exactly the suffix of
at most 12000 most recently appended particles among those that stayed
active through their own update and lie within the 900-unit cull distance
of the player; the distance cull is applied before the cap truncation. -/
theorem C6_update_debris_cull_then_cap (env : Env) (w : World) (dt px pz : ℚ) :
    let live := (w.debris_pieces.map (fun d => env.debrisUpdate d dt env.floorY)).filter
      (fun d => d.active &&
        decide ((d.cx - px) * (d.cx - px) + (d.cz - pz) * (d.cz - pz) ≤ 900 * 900))
    (update_debris env w dt px pz).debris_pieces = live.drop (live.length - 12000) ∧
    (update_debris env w dt px pz).debris_pieces.length ≤ 12000 ∧
    (update_debris env w dt px pz).debris_pieces.IsSuffix live := by
  intro live
  have hlive : (update_debris env w dt px pz).debris_pieces
      = if live.length > 12000 then live.drop (live.length - 12000) else live := by
    simp only [update_debris, filter_map_deactivate]
  have hdrop : (update_debris env w dt px pz).debris_pieces
      = live.drop (live.length - 12000) := by
    rw [hlive]
    by_cases hc : live.length > 12000
    · rw [if_pos hc]
    · rw [if_neg hc]
      have : live.length - 12000 = 0 := by omega
      rw [this, List.drop_zero]
  refine ⟨hdrop, ?_, ?_⟩
  · rw [hdrop, List.length_drop]
    omega
  · rw [hdrop]
    exact List.drop_suffix _ _

set_option maxRecDepth 100000 in
/-- C5 (evaluation of the code at the failing input): with 1001 active
debris pieces (the i-th appended has cx = i), get_state_for_save keeps the
first-appended 1000 — the saved list is the image of indices 0..999 and the
most recently appended piece (cx = 1000) is missing, although the source's
own comment says the 1000 most recent pieces are kept. -/
theorem C5_debris_save_keeps_oldest :
    (get_state_for_save w1001).debris_pieces
      = (List.range 1000).map (fun i =>
          ({ cx := (i : ℚ), cy := 0, cz := 0, color := (0, 0, 0),
             vx := 0, vy := 0, vz := 0, is_settled := true } : DebrisRec)) ∧
    ({ cx := (1000 : ℚ), cy := 0, cz := 0, color := (0, 0, 0),
       vx := 0, vy := 0, vz := 0, is_settled := true } : DebrisRec)
      ∉ (get_state_for_save w1001).debris_pieces ∧
    (get_state_for_save w1001).debris_pieces.length = 1000 := by
  refine ⟨by decide, by decide, by decide⟩

/-- C1 (evaluation of the code at the failing input): load_state recovers
keys with eval; one malformed wall_cache key string makes the whole load
raise (modelled as the loader's error), losing the preceding well-formed
entry too — no individual-entry skip happens, contrary to the claim's
strict-parser behaviour.  The second conjunct shows the companion
well-formed key string of the same document does parse, so the abort is
attributable to the malformed entry alone. -/
theorem C1_load_state_eval_aborts :
    load_state (World.init 3) docBadKey = .error () ∧
    pyEvalWallKey? (printWallKey keyX) = some keyX :=
  ⟨by decide, by decide⟩

/-- C7 (counterexample to the claim as stated): in a configuration with
spacing 120, wall thickness 10, hallway width 60 and player radius 15 (the
source literal), the wall (0,0)-(120,0) exists, is not destroyed, and is
classified "hallway", so its opening is [30, 90] and its left flanking
strip is [0, 30].  The probe (20, 0) lies inside that strip on the wall
line itself (so the claim — strips solid, widths extended outward by the
radius — requires check_collision to return true there), yet
check_collision returns false: the code only blocks x ≤ 30 - 15. -/
theorem C7_collision_strip_counterexample :
    (has_wall_between envX wX 0 0 120 0).1 = true ∧
    mkWallKey 0 0 120 0 ∉ wX.destroyed_walls ∧
    get_doorway_type envX wX 0 0 120 0 = some .hallway ∧
    openingWidth envX (get_doorway_type envX wX 0 0 120 0) = 60 ∧
    ((0 : ℚ) ≤ 20 ∧ (20 : ℚ) ≤ 0 + (((envX.pillarSpacing : Int) : ℚ) - 60) / 2 ∧
      |(0 : ℚ) - 0| < envX.wallThickness / 2 + 15) ∧
    (check_collision envX wX 20 0).1 = false := by
  refine ⟨by decide, by decide, by decide, by decide,
          ⟨by norm_num, by decide, by decide⟩, by decide⟩

/-- C7 (amended): for a non-destroyed wall with an opening of width ow > 0,
the per-wall solidity test of check_collision blocks exactly the positions
within half-thickness-plus-radius of the wall line whose along-axis
coordinate lies in [span_start, opening_start − r] or
[opening_end + r, span_end]: each flanking strip is cut short of the
opening edge by the player radius r = 15 (the opening is effectively
widened by r on each side, so the mover's disc may overlap the opening
edges) and is not extended past the wall ends.  A probe at the opening's
center is never blocked by this wall.  With no opening the whole span
extended by r (and half-thickness plus r across) is solid. -/
theorem C7_wall_opening_strips (env : Env) (ow ws we wline along cross : ℚ)
    (how : 0 < ow) :
    (wall_span_solid env ow ws we wline along cross = true ↔
      (|cross - wline| < env.wallThickness / 2 + 15 ∧
        ((ws ≤ along ∧ along ≤ ws + (((env.pillarSpacing : Int) : ℚ) - ow) / 2 - 15) ∨
         (ws + (((env.pillarSpacing : Int) : ℚ) - ow) / 2 + ow + 15 ≤ along ∧ along ≤ we)))) ∧
    (wall_span_solid env ow ws we wline
        (ws + (((env.pillarSpacing : Int) : ℚ) - ow) / 2 + ow / 2) cross = false) ∧
    (wall_span_solid env 0 ws we wline along cross = true ↔
      (ws - 15 ≤ along ∧ along ≤ we + 15 ∧
        |cross - wline| < env.wallThickness / 2 + 15)) := by
  refine ⟨?_, ?_, ?_⟩
  · rw [wall_span_solid]
    rw [if_pos how]
    simp only [Bool.and_eq_true, Bool.or_eq_true, decide_eq_true_eq]
  · rw [wall_span_solid]
    rw [if_pos how]
    have h1 : ¬(ws ≤ ws + (((env.pillarSpacing : Int) : ℚ) - ow) / 2 + ow / 2 ∧
        ws + (((env.pillarSpacing : Int) : ℚ) - ow) / 2 + ow / 2
          ≤ ws + (((env.pillarSpacing : Int) : ℚ) - ow) / 2 - 15) := by
      rintro ⟨_, hb⟩
      nlinarith
    have h2 : ¬(ws + (((env.pillarSpacing : Int) : ℚ) - ow) / 2 + ow + 15
          ≤ ws + (((env.pillarSpacing : Int) : ℚ) - ow) / 2 + ow / 2 ∧
        ws + (((env.pillarSpacing : Int) : ℚ) - ow) / 2 + ow / 2 ≤ we) := by
      rintro ⟨ha, _⟩
      nlinarith
    simp [h1, h2]
  · rw [wall_span_solid]
    rw [if_neg (by norm_num)]
    simp only [decide_eq_true_eq]

theorem C7_wall_opening_strips_witness :
    (0 : ℚ) < 60 ∧
    wall_span_solid envX 60 0 120 0
        ((0 : ℚ) + (((envX.pillarSpacing : Int) : ℚ) - 60) / 2 + 60 / 2) 0 = false :=
  ⟨by norm_num, (C7_wall_opening_strips envX 60 0 120 0 0 0 (by norm_num)).2.1⟩

/-! ### Caching and determinism lemmas -/

theorem has_pillar_at_caches (env : Env) (w : World) (px pz : Int) :
    dget? (has_pillar_at env w px pz).2.pillar_cache ((px, pz) : PillarKey)
      = some (has_pillar_at env w px pz).1 := by
  rw [has_pillar_at]
  cases hc : dget? w.pillar_cache ((px, pz) : PillarKey) with
  | some v => simpa using hc
  | none =>
    dsimp only
    split
    · exact dget?_dset_self _ _ _
    · split
      · exact dget?_dset_self _ _ _
      · split
        · exact dget?_dset_self _ _ _
        · exact dget?_dset_self _ _ _

theorem has_pillar_at_cached (env : Env) (w : World) (px pz : Int) (r : Bool)
    (h : dget? w.pillar_cache ((px, pz) : PillarKey) = some r) :
    has_pillar_at env w px pz = (r, w) := by
  rw [has_pillar_at, h]

theorem has_wall_between_caches (env : Env) (w : World) (x1 z1 x2 z2 : Int) :
    dget? (has_wall_between env w x1 z1 x2 z2).2.wall_cache (mkWallKey x1 z1 x2 z2)
      = some (has_wall_between env w x1 z1 x2 z2).1 := by
  rw [has_wall_between]
  cases hc : dget? w.wall_cache (mkWallKey x1 z1 x2 z2) with
  | some v => simpa using hc
  | none =>
    dsimp only
    split
    · exact dget?_dset_self _ _ _
    · exact dget?_dset_self _ _ _

theorem has_wall_between_cached (env : Env) (w : World) (x1 z1 x2 z2 : Int) (r : Bool)
    (h : dget? w.wall_cache (mkWallKey x1 z1 x2 z2) = some r) :
    has_wall_between env w x1 z1 x2 z2 = (r, w) := by
  rw [has_wall_between, h]

theorem predamage_roll_fresh (env : Env) (w : World) (key : WallKey)
    (x1 z1 x2 z2 : Int)
    (hpd : w.pre_damaged_walls = []) (hz : w.zone_cache = [])
    (hd : w.destroyed_walls = []) :
    (predamage_roll env w key x1 z1 x2 z2).pre_damaged_walls
      = preDamageOutcome env w.world_seed key x1 z1 x2 z2 ∧
    (predamage_roll env w key x1 z1 x2 z2).destroyed_walls
      = preDestroyOutcome env w.world_seed key x1 z1 x2 z2 := by
  constructor <;>
  · simp only [predamage_roll, hpd, hz, hd, dget?_nil, Option.isNone_none,
      get_zone_properties, preDamageOutcome, preDestroyOutcome, decaySeed]
    split_ifs <;> rfl

/-- C8: for a fixed environment, `has_pillar_at` answers identically on a
repeated call to one instance (the second call reads the cache the first
call populated, and leaves the world untouched); `has_wall_between` on a
repeated call returns the same answer and the identical world, so the
recorded pre-damage outcome is not re-rolled; and across two fresh
instances with equal seeds, `has_pillar_at`, the pre-damage outcome of
`has_wall_between` (recorded amount and destroyed membership), and
`get_doorway_type` all agree. -/
theorem C8_generator_determinism (env : Env) (w w1 w2 : World)
    (px pz x1 z1 x2 z2 : Int)
    (hseed : w1.world_seed = w2.world_seed)
    (hp1 : w1.pillar_cache = []) (hp2 : w2.pillar_cache = [])
    (hw1 : w1.wall_cache = []) (hw2 : w2.wall_cache = [])
    (hpd1 : w1.pre_damaged_walls = []) (hpd2 : w2.pre_damaged_walls = [])
    (hz1 : w1.zone_cache = []) (hz2 : w2.zone_cache = [])
    (hd1 : w1.destroyed_walls = []) (hd2 : w2.destroyed_walls = []) :
    (has_pillar_at env (has_pillar_at env w px pz).2 px pz
       = ((has_pillar_at env w px pz).1, (has_pillar_at env w px pz).2)) ∧
    (has_wall_between env (has_wall_between env w x1 z1 x2 z2).2 x1 z1 x2 z2
       = ((has_wall_between env w x1 z1 x2 z2).1, (has_wall_between env w x1 z1 x2 z2).2)) ∧
    ((has_pillar_at env w1 px pz).1 = (has_pillar_at env w2 px pz).1) ∧
    (dget? (has_wall_between env w1 x1 z1 x2 z2).2.pre_damaged_walls (mkWallKey x1 z1 x2 z2)
       = dget? (has_wall_between env w2 x1 z1 x2 z2).2.pre_damaged_walls (mkWallKey x1 z1 x2 z2)) ∧
    ((mkWallKey x1 z1 x2 z2 ∈ (has_wall_between env w1 x1 z1 x2 z2).2.destroyed_walls)
       ↔ (mkWallKey x1 z1 x2 z2 ∈ (has_wall_between env w2 x1 z1 x2 z2).2.destroyed_walls)) ∧
    (get_doorway_type env w1 x1 z1 x2 z2 = get_doorway_type env w2 x1 z1 x2 z2) := by
  refine ⟨?_, ?_, ?_, ?_, ?_, ?_⟩
  · exact has_pillar_at_cached env _ px pz _ (has_pillar_at_caches env w px pz)
  · exact has_wall_between_cached env _ x1 z1 x2 z2 _ (has_wall_between_caches env w x1 z1 x2 z2)
  · rw [has_pillar_at, has_pillar_at, hp1, hp2, dget?_nil, hseed]
    dsimp only
    split_ifs <;> rfl
  · rw [has_wall_between, has_wall_between, hw1, hw2, dget?_nil]
    dsimp only
    by_cases halign : z1 = z2 ∨ x1 = x2
    · rw [if_pos halign, if_pos halign]
      dsimp only
      rw [(predamage_roll_fresh env w1 _ x1 z1 x2 z2 hpd1 hz1 hd1).1,
          (predamage_roll_fresh env w2 _ x1 z1 x2 z2 hpd2 hz2 hd2).1, hseed]
    · rw [if_neg halign, if_neg halign]
      dsimp only
      rw [hpd1, hpd2]
  · rw [has_wall_between, has_wall_between, hw1, hw2, dget?_nil]
    dsimp only
    by_cases halign : z1 = z2 ∨ x1 = x2
    · rw [if_pos halign, if_pos halign]
      dsimp only
      rw [(predamage_roll_fresh env w1 _ x1 z1 x2 z2 hpd1 hz1 hd1).2,
          (predamage_roll_fresh env w2 _ x1 z1 x2 z2 hpd2 hz2 hd2).2, hseed]
    · rw [if_neg halign, if_neg halign]
      dsimp only
      rw [hd1, hd2]
  · rw [get_doorway_type, get_doorway_type, hseed]

theorem C8_generator_determinism_witness :
    ((World.init 5).world_seed = (World.init 5).world_seed ∧
     (World.init 5).pillar_cache = [] ∧ (World.init 5).wall_cache = [] ∧
     (World.init 5).pre_damaged_walls = [] ∧ (World.init 5).zone_cache = [] ∧
     (World.init 5).destroyed_walls = []) ∧
    (has_pillar_at envX (World.init 5) 60 60).1
      = (has_pillar_at envX (World.init 5) 60 60).1 ∧
    get_doorway_type envX (World.init 5) 0 0 120 0
      = get_doorway_type envX (World.init 5) 0 0 120 0 :=
  ⟨⟨rfl, rfl, rfl, rfl, rfl, rfl⟩,
   (C8_generator_determinism envX wX (World.init 5) (World.init 5) 60 60 0 0 120 0
      rfl rfl rfl rfl rfl rfl rfl rfl rfl rfl rfl).2.2.1,
   (C8_generator_determinism envX wX (World.init 5) (World.init 5) 60 60 0 0 120 0
      rfl rfl rfl rfl rfl rfl rfl rfl rfl rfl rfl).2.2.2.2.2⟩

/-! ### Frame lemmas for check_collision (C9) -/

theorem frameOK_refl (w : World) : FrameOK w w :=
  ⟨rfl, rfl, rfl, rfl, rfl, rfl, rfl, rfl, rfl, rfl, rfl, rfl,
   fun _ _ h => h, fun _ _ h => h, fun _ _ h => h, fun _ _ h => h,
   fun _ ha => ha, fun _ hk hnk => absurd hk hnk⟩

theorem frameOK_of_eq {w w' : World} (h : w' = w) : FrameOK w w' := by
  subst h
  exact frameOK_refl _

theorem frameOK_trans {w1 w2 w3 : World}
    (h12 : FrameOK w1 w2) (h23 : FrameOK w2 w3) : FrameOK w1 w3 := by
  obtain ⟨a1, a2, a3, a4, a5, a6, a7, a8, a9, a10, a11, a12, a13, a14, a15, a16, a17, a18⟩ := h12
  obtain ⟨b1, b2, b3, b4, b5, b6, b7, b8, b9, b10, b11, b12, b13, b14, b15, b16, b17, b18⟩ := h23
  refine ⟨b1.trans a1, b2.trans a2, b3.trans a3, b4.trans a4, b5.trans a5,
    b6.trans a6, b7.trans a7, b8.trans a8, b9.trans a9, b10.trans a10,
    b11.trans a11, b12.trans a12,
    fun k v h => b13 k v (a13 k v h), fun k v h => b14 k v (a14 k v h),
    fun k v h => b15 k v (a15 k v h), fun k v h => b16 k v (a16 k v h),
    a17.trans b17, ?_⟩
  intro k hk3 hnk1
  by_cases hk2 : k ∈ w2.destroyed_walls
  · obtain ⟨dmg, hd, hlt⟩ := a18 k hk2 hnk1
    exact ⟨dmg, b16 k dmg hd, hlt⟩
  · exact b18 k hk3 hk2

theorem frameOK_set_wall_cache (w : World) (k : WallKey) (v : Bool)
    (h : dget? w.wall_cache k = none) :
    FrameOK w { w with wall_cache := dset w.wall_cache k v } :=
  ⟨rfl, rfl, rfl, rfl, rfl, rfl, rfl, rfl, rfl, rfl, rfl, rfl,
   fun _ _ h' => dget?_dset_preserve _ _ _ _ _ h h',
   fun _ _ h' => h', fun _ _ h' => h', fun _ _ h' => h',
   fun _ ha => ha, fun _ hk hnk => absurd hk hnk⟩

theorem frameOK_set_zone_cache (w : World) (k : Int × Int) (v : ZoneProps)
    (h : dget? w.zone_cache k = none) :
    FrameOK w { w with zone_cache := dset w.zone_cache k v } :=
  ⟨rfl, rfl, rfl, rfl, rfl, rfl, rfl, rfl, rfl, rfl, rfl, rfl,
   fun _ _ h' => h', fun _ _ h' => h',
   fun _ _ h' => dget?_dset_preserve _ _ _ _ _ h h', fun _ _ h' => h',
   fun _ ha => ha, fun _ hk hnk => absurd hk hnk⟩

theorem frameOK_set_pillar_cache (w : World) (k : PillarKey) (v : Bool)
    (h : dget? w.pillar_cache k = none) :
    FrameOK w { w with pillar_cache := dset w.pillar_cache k v } :=
  ⟨rfl, rfl, rfl, rfl, rfl, rfl, rfl, rfl, rfl, rfl, rfl, rfl,
   fun _ _ h' => h', fun _ _ h' => dget?_dset_preserve _ _ _ _ _ h h',
   fun _ _ h' => h', fun _ _ h' => h',
   fun _ ha => ha, fun _ hk hnk => absurd hk hnk⟩

theorem frameOK_predamage_only (w : World) (key : WallKey) (dmg : ℚ)
    (h : dget? w.pre_damaged_walls key = none) :
    FrameOK w { w with pre_damaged_walls := dset w.pre_damaged_walls key dmg } :=
  ⟨rfl, rfl, rfl, rfl, rfl, rfl, rfl, rfl, rfl, rfl, rfl, rfl,
   fun _ _ h' => h', fun _ _ h' => h', fun _ _ h' => h',
   fun _ _ h' => dget?_dset_preserve _ _ _ _ _ h h',
   fun _ ha => ha, fun _ hk hnk => absurd hk hnk⟩

theorem frameOK_predamage_destroy (w : World) (key : WallKey) (dmg : ℚ)
    (h : dget? w.pre_damaged_walls key = none) (hdmg : dmg < q02) :
    FrameOK w { w with pre_damaged_walls := dset w.pre_damaged_walls key dmg,
                       destroyed_walls := sadd w.destroyed_walls key } := by
  refine ⟨rfl, rfl, rfl, rfl, rfl, rfl, rfl, rfl, rfl, rfl, rfl, rfl,
    fun _ _ h' => h', fun _ _ h' => h', fun _ _ h' => h',
    fun _ _ h' => dget?_dset_preserve _ _ _ _ _ h h',
    sadd_subset _ _, ?_⟩
  intro k hk hnk
  rcases (mem_sadd _ _ _).mp hk with hin | rfl
  · exact absurd hin hnk
  · exact ⟨dmg, dget?_dset_self _ _ _, hdmg⟩

theorem get_zone_properties_proj (env : Env) (w : World) (zx zz : Int) :
    (get_zone_properties env w zx zz).2.pre_damaged_walls = w.pre_damaged_walls ∧
    (get_zone_properties env w zx zz).2.wall_cache = w.wall_cache ∧
    (get_zone_properties env w zx zz).2.destroyed_walls = w.destroyed_walls := by
  rw [get_zone_properties]
  cases dget? w.zone_cache (zx, zz) <;> exact ⟨rfl, rfl, rfl⟩

theorem get_zone_properties_frame (env : Env) (w : World) (zx zz : Int) :
    FrameOK w (get_zone_properties env w zx zz).2 := by
  rw [get_zone_properties]
  cases hz : dget? w.zone_cache (zx, zz) with
  | some p => exact frameOK_refl _
  | none => exact frameOK_set_zone_cache w _ _ hz

theorem predamage_roll_wall_cache (env : Env) (w : World) (key : WallKey)
    (x1 z1 x2 z2 : Int) :
    (predamage_roll env w key x1 z1 x2 z2).wall_cache = w.wall_cache := by
  rw [predamage_roll]
  dsimp only
  split_ifs <;>
    simp [(get_zone_properties_proj env w _ _).2.1]

theorem predamage_roll_frame (env : Env) (w : World) (key : WallKey)
    (x1 z1 x2 z2 : Int) :
    FrameOK w (predamage_roll env w key x1 z1 x2 z2) := by
  rw [predamage_roll]
  by_cases hpd : (dget? w.pre_damaged_walls key).isNone
  · rw [if_pos hpd]
    dsimp only
    have hz := get_zone_properties_frame env w
      (get_zone_at env (((x1 : ℚ) + x2) / 2) (((z1 : ℚ) + z2) / 2)).1
      (get_zone_at env (((x1 : ℚ) + x2) / 2) (((z1 : ℚ) + z2) / 2)).2
    have hfresh : dget? (get_zone_properties env w
        (get_zone_at env (((x1 : ℚ) + x2) / 2) (((z1 : ℚ) + z2) / 2)).1
        (get_zone_at env (((x1 : ℚ) + x2) / 2) (((z1 : ℚ) + z2) / 2)).2).2.pre_damaged_walls key
        = none := by
      rw [(get_zone_properties_proj env w _ _).1]
      exact Option.isNone_iff_eq_none.mp hpd
    split_ifs with hroll hdmg
    · exact frameOK_trans hz (frameOK_predamage_destroy _ key _ hfresh hdmg)
    · exact frameOK_trans hz (frameOK_predamage_only _ key _ hfresh)
    · exact hz
  · rw [if_neg hpd]
    exact frameOK_refl _

theorem has_wall_between_frame (env : Env) (w : World) (x1 z1 x2 z2 : Int) :
    FrameOK w (has_wall_between env w x1 z1 x2 z2).2 := by
  rw [has_wall_between]
  cases hc : dget? w.wall_cache (mkWallKey x1 z1 x2 z2) with
  | some v => exact frameOK_refl _
  | none =>
    dsimp only
    by_cases halign : z1 = z2 ∨ x1 = x2
    · rw [if_pos halign]
      dsimp only
      have h1 := predamage_roll_frame env w (mkWallKey x1 z1 x2 z2) x1 z1 x2 z2
      have h2 : FrameOK (predamage_roll env w (mkWallKey x1 z1 x2 z2) x1 z1 x2 z2)
          { predamage_roll env w (mkWallKey x1 z1 x2 z2) x1 z1 x2 z2 with
            wall_cache := dset (predamage_roll env w (mkWallKey x1 z1 x2 z2)
              x1 z1 x2 z2).wall_cache (mkWallKey x1 z1 x2 z2) true } := by
        refine frameOK_set_wall_cache _ _ _ ?_
        rw [predamage_roll_wall_cache]
        exact hc
      exact frameOK_trans h1 h2
    · rw [if_neg halign]
      exact frameOK_set_wall_cache _ _ _ hc

theorem has_pillar_at_frame (env : Env) (w : World) (px pz : Int) :
    FrameOK w (has_pillar_at env w px pz).2 := by
  rw [has_pillar_at]
  cases hc : dget? w.pillar_cache ((px, pz) : PillarKey) with
  | some v => exact frameOK_refl _
  | none =>
    dsimp only
    split_ifs <;> exact frameOK_set_pillar_cache w _ _ hc

theorem cell_pillar_frame (env : Env) (w : World) (gx gz : Int) (x z : ℚ) :
    FrameOK w (cell_pillar env w gx gz x z).2 := by
  rw [cell_pillar]
  split_ifs <;> exact has_pillar_at_frame env w _ _

theorem cell_vert_frame (env : Env) (w : World) (gx gz : Int) (x z : ℚ) :
    FrameOK w (cell_vert env w gx gz x z).2 := by
  rw [cell_vert]
  have hw := has_wall_between_frame env w gx gz gx (gz + env.pillarSpacing)
  split_ifs <;>
    first
      | exact hw
      | exact frameOK_trans hw (cell_pillar_frame env _ gx gz x z)

theorem cell_blocked_frame (env : Env) (w : World) (gx gz : Int) (x z : ℚ) :
    FrameOK w (cell_blocked env w gx gz x z).2 := by
  rw [cell_blocked]
  have hw := has_wall_between_frame env w gx gz (gx + env.pillarSpacing) gz
  split_ifs <;>
    first
      | exact hw
      | exact frameOK_trans hw (cell_vert_frame env _ gx gz x z)

theorem collide_cells_frame (env : Env) (x z : ℚ) :
    ∀ (cells : List (Int × Int)) (w : World),
      FrameOK w (collide_cells env x z cells w).2 := by
  intro cells
  induction cells with
  | nil => intro w; exact frameOK_refl _
  | cons c rest ih =>
    intro w
    rw [collide_cells]
    have hc := cell_blocked_frame env w c.1 c.2 x z
    split_ifs
    · exact hc
    · exact frameOK_trans hc (ih _)

/-- C9: for every finite query position, check_collision leaves wall_health,
wall_states, wall_cracks, debris_pieces (and every other non-discovery
store) untouched; wall_cache, pillar_cache, zone_cache and
pre_damaged_walls only gain entries (existing ones are preserved);
destroyed_walls only grows, and every wall it gains carries a recorded
pre-damage amount below the float 0.2. -/
theorem C9_check_collision_frame (env : Env) (w : World) (x z : ℚ) :
    FrameOK w (check_collision env w x z).2 := by
  rw [check_collision]
  exact collide_cells_frame env x z _ w

theorem C9_check_collision_frame_witness :
    (check_collision envX wX 1 1).2.wall_health = wX.wall_health ∧
    (check_collision envX wX 1 1).2.debris_pieces = wX.debris_pieces :=
  ⟨(C9_check_collision_frame envX wX 1 1).2.1,
   (C9_check_collision_frame envX wX 1 1).2.2.2.2.1⟩

/-! ### Save/load round-trip lemmas (C2) -/

theorem dset_fresh {κ β : Type} [DecidableEq κ] (m : List (κ × β)) (k : κ) (v : β)
    (h : k ∉ m.map Prod.fst) : dset m k v = m ++ [(k, v)] := by
  induction m with
  | nil => rfl
  | cons p rest ih =>
    have hne : p.1 ≠ k := by
      intro he
      exact h (by simp [he])
    rw [dset]
    rw [if_neg hne]
    rw [ih (fun hm => h (by simp [hm]))]
    rfl

theorem foldl_dset_fresh {κ β : Type} [DecidableEq κ] :
    ∀ (l acc : List (κ × β)),
      (∀ p ∈ l, p.1 ∉ acc.map Prod.fst) → (l.map Prod.fst).Nodup →
      l.foldl (fun a p => dset a p.1 p.2) acc = acc ++ l := by
  intro l
  induction l with
  | nil => intro acc _ _; simp
  | cons p rest ih =>
    intro acc hfresh hnd
    rw [List.foldl_cons]
    have hp : p.1 ∉ acc.map Prod.fst := hfresh p (by simp)
    have hset := dset_fresh acc p.1 p.2 hp
    rw [hset]
    have hnd' : (rest.map Prod.fst).Nodup := by
      simpa using (List.nodup_cons.mp (by simpa using hnd)).2
    have hfresh' : ∀ q ∈ rest, q.1 ∉ (acc ++ [(p.1, p.2)]).map Prod.fst := by
      intro q hq
      rw [List.map_append, List.mem_append]
      rintro (hin | hin)
      · exact hfresh q (by simp [hq]) hin
      · have hq1 : q.1 = p.1 := by simpa using hin
        have : p.1 ∈ rest.map Prod.fst := by
          rw [← hq1]
          exact List.mem_map_of_mem Prod.fst hq
        exact (List.nodup_cons.mp (by simpa using hnd)).1 this
    rw [ih _ hfresh' hnd']
    simp

theorem foldl_dset_nil {κ β : Type} [DecidableEq κ] (l : List (κ × β))
    (hnd : (l.map Prod.fst).Nodup) :
    l.foldl (fun a p => dset a p.1 p.2) [] = l := by
  rw [foldl_dset_fresh l [] (by simp) hnd]
  rfl

theorem load_wall_keyed_map_id {β : Type} (l : List (WallKey × β)) :
    ∀ acc, load_wall_keyed some (l.map (fun p => (printWallKey p.1, p.2))) acc
      = .ok (l.foldl (fun a p => dset a p.1 p.2) acc) := by
  induction l with
  | nil => intro acc; rfl
  | cons p rest ih =>
    intro acc
    simp only [List.map_cons, load_wall_keyed, pyEvalWallKey?_print]
    rw [List.foldl_cons]
    exact ih _

theorem load_wall_keyed_map_state (l : List (WallKey × WallState)) :
    ∀ acc, load_wall_keyed WallState.ofPyName
        (l.map (fun p => (printWallKey p.1, p.2.pyName))) acc
      = .ok (l.foldl (fun a p => dset a p.1 p.2) acc) := by
  induction l with
  | nil => intro acc; rfl
  | cons p rest ih =>
    intro acc
    simp only [List.map_cons, load_wall_keyed, pyEvalWallKey?_print,
      WallState.ofPyName_pyName]
    rw [List.foldl_cons]
    exact ih _

theorem load_pillar_keyed_map (l : List (PillarKey × Bool)) :
    ∀ acc, load_pillar_keyed (l.map (fun p => (printPillarKey p.1, p.2))) acc
      = .ok (l.foldl (fun a p => dset a p.1 p.2) acc) := by
  induction l with
  | nil => intro acc; rfl
  | cons p rest ih =>
    intro acc
    simp only [List.map_cons, load_pillar_keyed, pyEvalPillarKey?_print]
    rw [List.foldl_cons]
    exact ih _

/-- C2: loading the document produced by get_state_for_save into any world
succeeds and reproduces destroyed_walls, destroyed_pillars, wall_states,
wall_health, wall_cracks, wall_cache and pillar_cache of the saved world
(the sets up to membership, the string-keyed dicts as identical association
lists, hence with identical lookups), fully replacing the target's previous
contents (the results depend only on the saved world), and leaves the
zone-flavor cache cleared. -/
theorem C2_save_load_round_trip (w w0 : World) (hwf : WFWorld w) :
    ∃ w', load_state w0 (get_state_for_save w) = .ok w' ∧
      (∀ k, k ∈ w'.destroyed_walls ↔ k ∈ w.destroyed_walls) ∧
      (∀ p, p ∈ w'.destroyed_pillars ↔ p ∈ w.destroyed_pillars) ∧
      w'.wall_states = w.wall_states ∧
      w'.wall_health = w.wall_health ∧
      w'.wall_cracks = w.wall_cracks ∧
      w'.wall_cache = w.wall_cache ∧
      w'.pillar_cache = w.pillar_cache ∧
      w'.pre_damaged_walls = w.pre_damaged_walls ∧
      w'.world_seed = w.world_seed ∧
      w'.zone_cache = [] := by
  obtain ⟨n1, n2, n3, n4, n5, n6⟩ := hwf
  have e1 : load_wall_keyed some
      (w.wall_cache.map (fun p => (printWallKey p.1, p.2))) [] = .ok w.wall_cache := by
    rw [load_wall_keyed_map_id, foldl_dset_nil _ n1]
  have e2 : load_pillar_keyed
      (w.pillar_cache.map (fun p => (printPillarKey p.1, p.2))) [] = .ok w.pillar_cache := by
    rw [load_pillar_keyed_map, foldl_dset_nil _ n2]
  have e3 : load_wall_keyed WallState.ofPyName
      (w.wall_states.map (fun p => (printWallKey p.1, p.2.pyName))) [] = .ok w.wall_states := by
    rw [load_wall_keyed_map_state, foldl_dset_nil _ n3]
  have e4 : load_wall_keyed some
      (w.wall_health.map (fun p => (printWallKey p.1, p.2))) [] = .ok w.wall_health := by
    rw [load_wall_keyed_map_id, foldl_dset_nil _ n4]
  have e5 : load_wall_keyed some
      (w.wall_cracks.map (fun p => (printWallKey p.1, p.2))) [] = .ok w.wall_cracks := by
    rw [load_wall_keyed_map_id, foldl_dset_nil _ n5]
  have e6 : load_wall_keyed some
      (w.pre_damaged_walls.map (fun p => (printWallKey p.1, p.2))) [] = .ok w.pre_damaged_walls := by
    rw [load_wall_keyed_map_id, foldl_dset_nil _ n6]
  refine ⟨{ w0 with
      world_seed := w.world_seed,
      wall_cache := w.wall_cache,
      pillar_cache := w.pillar_cache,
      destroyed_walls := pyset w.destroyed_walls,
      destroyed_pillars := pyset w.destroyed_pillars,
      destroyed_lamps := pyset w.destroyed_lamps,
      triggered_traps := pyset w.triggered_traps,
      wall_states := w.wall_states,
      wall_health := w.wall_health,
      wall_cracks := w.wall_cracks,
      pre_damaged_walls := w.pre_damaged_walls,
      debris_pieces := (get_state_for_save w).debris_pieces.map (fun r =>
        Debris.make (r.cx, r.cy, r.cz) r.color
          (if r.is_settled then none else some (r.vx, r.vy, r.vz))),
      zone_cache := [] }, ?_, fun k => by simp [mem_pyset], fun p => by simp [mem_pyset],
    rfl, rfl, rfl, rfl, rfl, rfl, rfl, rfl⟩
  rw [load_state]
  show (load_wall_keyed some
      (w.wall_cache.map (fun p => (printWallKey p.1, p.2))) []).bind _ = _
  rw [e1]
  show (load_pillar_keyed
      (w.pillar_cache.map (fun p => (printPillarKey p.1, p.2))) []).bind _ = _
  rw [e2]
  show (load_wall_keyed WallState.ofPyName
      (w.wall_states.map (fun p => (printWallKey p.1, p.2.pyName))) []).bind _ = _
  rw [e3]
  show (load_wall_keyed some
      (w.wall_health.map (fun p => (printWallKey p.1, p.2))) []).bind _ = _
  rw [e4]
  show (load_wall_keyed some
      (w.wall_cracks.map (fun p => (printWallKey p.1, p.2))) []).bind _ = _
  rw [e5]
  show (load_wall_keyed some
      (w.pre_damaged_walls.map (fun p => (printWallKey p.1, p.2))) []).bind _ = _
  rw [e6]
  rfl

theorem C2_save_load_round_trip_witness :
    WFWorld wSave ∧
    (∃ w', load_state (World.init 3) (get_state_for_save wSave) = .ok w' ∧
      (∀ k, k ∈ w'.destroyed_walls ↔ k ∈ wSave.destroyed_walls) ∧
      (∀ p, p ∈ w'.destroyed_pillars ↔ p ∈ wSave.destroyed_pillars) ∧
      w'.wall_states = wSave.wall_states ∧
      w'.wall_health = wSave.wall_health ∧
      w'.wall_cracks = wSave.wall_cracks ∧
      w'.wall_cache = wSave.wall_cache ∧
      w'.pillar_cache = wSave.pillar_cache ∧
      w'.pre_damaged_walls = wSave.pre_damaged_walls ∧
      w'.world_seed = wSave.world_seed ∧
      w'.zone_cache = []) :=
  ⟨by decide, C2_save_load_round_trip wSave (World.init 3) (by decide)⟩

end Backrooms
